import Mathlib

/-!
# Bookstore backend — shallow embedding and verification

A shallow embedding of the cart / checkout / review / comment logic of the
bookstore backend (Express + Prisma over MySQL).  Each Prisma `$transaction`
block is embedded as one atomic Lean function on the database state; each
controller that issues several independent top-level Prisma calls is embedded
as a list of such atomic units, so that the committed-prefix semantics of a
failure between two calls is expressible.  Machine integers of the source are
`Int` / `Nat`; `DECIMAL` money and rating averages are `ℚ`; `DATETIME`
columns are abstract `Nat` ticks, strictly increasing over row insertions, so
`ORDER BY createdAt DESC` over rows appended in creation order is realised by
`List.reverse`.
-/

deriving instance DecidableEq for Except

namespace Bookstore

/-- Machine-readable error codes of the response envelope
(src/utils/error.ts `ApiError.code`). -/
inductive ErrCode where
  | BAD_REQUEST
  | VALIDATION_FAILED
  | UNAUTHORIZED
  | FORBIDDEN
  | RESOURCE_NOT_FOUND
  | DUPLICATE_RESOURCE
  | UNPROCESSABLE_ENTITY
  | DB_CONSTRAINT
  deriving DecidableEq, Repr

/-- `ApiError(status, code, …)` of src/utils/error.ts, without the
human-readable message and details. -/
structure ApiErr where
  status : Nat
  code : ErrCode
  deriving DecidableEq, Repr

/-- `Book` row: price is `DECIMAL`, stock is a signed `INTEGER` column,
`deletedAt` is the soft-delete tombstone, `avgRating`/`reviewCount` are the
denormalized review aggregates. -/
structure Book where
  id : Nat
  title : String
  price : ℚ
  stock : Int
  deletedAt : Option Nat
  avgRating : ℚ
  reviewCount : Nat
  deriving DecidableEq, Repr

/-- `Cart.status` enum. -/
inductive CartStatus where
  | ACTIVE
  | CHECKED_OUT
  | ABANDONED
  deriving DecidableEq, Repr

/-- `Cart` row. -/
structure Cart where
  id : Nat
  userId : Nat
  status : CartStatus
  createdAt : Nat
  deriving DecidableEq, Repr

/-- `CartItem` row, composite-keyed by (cartId, bookId); `unitPrice` is the
price captured at add time. -/
structure CartItem where
  cartId : Nat
  bookId : Nat
  quantity : Int
  unitPrice : ℚ
  createdAt : Nat
  deriving DecidableEq, Repr

/-- `Order.status` enum. -/
inductive OrderStatus where
  | PENDING
  | PAID
  | SHIPPED
  | COMPLETED
  | CANCELLED
  | REFUNDED
  deriving DecidableEq, Repr

/-- `Order.paymentStatus` enum. -/
inductive PaymentStatus where
  | UNPAID
  | PAID
  | REFUNDED
  | FAILED
  deriving DecidableEq, Repr

/-- `Order` row. -/
structure Order where
  id : Nat
  userId : Nat
  cartId : Option Nat
  status : OrderStatus
  paymentStatus : PaymentStatus
  totalAmount : ℚ
  placedAt : Nat
  createdAt : Nat
  deriving DecidableEq, Repr

/-- `OrderItem` row, with the frozen `bookTitleSnapshot`. -/
structure OrderItem where
  orderId : Nat
  bookId : Nat
  quantity : Int
  unitPrice : ℚ
  bookTitleSnapshot : String
  deriving DecidableEq, Repr

/-- `Review` row with denormalized counters. -/
structure Review where
  id : Nat
  userId : Nat
  bookId : Nat
  rating : Int
  title : Option String
  content : String
  likeCount : Int
  commentCount : Int
  deletedAt : Option Nat
  deriving DecidableEq, Repr

/-- `ReviewLike` row, composite-keyed by (userId, reviewId). -/
structure ReviewLike where
  userId : Nat
  reviewId : Nat
  deriving DecidableEq, Repr

/-- `Comment` row. -/
structure Comment where
  id : Nat
  reviewId : Nat
  userId : Nat
  content : String
  likeCount : Int
  deletedAt : Option Nat
  deriving DecidableEq, Repr

/-- `CommentLike` row, composite-keyed by (userId, commentId). -/
structure CommentLike where
  userId : Nat
  commentId : Nat
  deriving DecidableEq, Repr

/-- The relational store.  `next…Id` model the AUTO_INCREMENT counters and
`now` the clock (ticked on row creation so `createdAt` values are strictly
increasing in insertion order). -/
structure DB where
  books : List Book
  carts : List Cart
  cartItems : List CartItem
  orders : List Order
  orderItems : List OrderItem
  reviews : List Review
  reviewLikes : List ReviewLike
  comments : List Comment
  commentLikes : List CommentLike
  nextCartId : Nat
  nextOrderId : Nat
  nextReviewId : Nat
  nextCommentId : Nat
  now : Nat
  deriving DecidableEq, Repr

/-- `prisma.book.findFirst(where id)` (no soft-delete filter). -/
def lookupBook (db : DB) (bookId : Nat) : Option Book :=
  db.books.find? (fun b => b.id == bookId)

/-- `prisma.book.findFirst(where id, deletedAt: null)`. -/
def findLiveBook (db : DB) (bookId : Nat) : Option Book :=
  db.books.find? (fun b => b.id == bookId && b.deletedAt.isNone)

/-- `prisma.cart.findFirst(where userId, status: "ACTIVE")`. -/
def findActiveCart (db : DB) (userId : Nat) : Option Cart :=
  db.carts.find? (fun c => c.userId == userId && decide (c.status = CartStatus.ACTIVE))

/-- `prisma.cartItem.findUnique(where cartId_bookId)`. -/
def findCartItem (db : DB) (cartId bookId : Nat) : Option CartItem :=
  db.cartItems.find? (fun it => it.cartId == cartId && it.bookId == bookId)

/-- cart.controller.ts `getOrCreateActiveCart`: return the ACTIVE cart of the
user, creating one (status ACTIVE) when none exists. -/
def getOrCreateActiveCart (db : DB) (userId : Nat) : DB × Cart :=
  match findActiveCart db userId with
  | some c => (db, c)
  | none =>
    let c : Cart := { id := db.nextCartId, userId := userId,
                      status := CartStatus.ACTIVE, createdAt := db.now }
    ({ db with carts := db.carts ++ [c], nextCartId := db.nextCartId + 1,
               now := db.now + 1 }, c)

/-- cart.controller.ts `parseQuantity`: integer quantity in [1, 999], else a
400 VALIDATION_FAILED error. -/
def parseQuantity (q : Int) : Except ApiErr Int :=
  if q < 1 || q > 999 then Except.error ⟨400, ErrCode.VALIDATION_FAILED⟩
  else Except.ok q

/-- Payload of the add / update cart-item endpoints (cartId, bookId,
quantity, unitPrice of the written row). -/
structure ItemPayload where
  cartId : Nat
  bookId : Nat
  quantity : Int
  unitPrice : ℚ
  deriving DecidableEq, Repr

/-- cart.controller.ts `addCartItemController`.  The cart get-or-create runs
before (outside) the item transaction, so a later error keeps a created cart;
a fresh line captures `unitPrice = book.price`, an existing line gets
`quantity := existing.quantity + q` only when that total fits the stock. -/
def addCartItem (userId bookId : Nat) (q : Int) (db : DB) :
    DB × Except ApiErr ItemPayload :=
  match parseQuantity q with
  | Except.error e => (db, Except.error e)
  | Except.ok q =>
    let dc := getOrCreateActiveCart db userId
    let db1 := dc.1
    let cart := dc.2
    match findLiveBook db1 bookId with
    | none => (db1, Except.error ⟨404, ErrCode.RESOURCE_NOT_FOUND⟩)
    | some book =>
      if book.stock < q then
        (db1, Except.error ⟨422, ErrCode.UNPROCESSABLE_ENTITY⟩)
      else
        match findCartItem db1 cart.id bookId with
        | none =>
          let it : CartItem := { cartId := cart.id, bookId := bookId,
                                 quantity := q, unitPrice := book.price,
                                 createdAt := db1.now }
          ({ db1 with cartItems := db1.cartItems ++ [it], now := db1.now + 1 },
           Except.ok ⟨cart.id, bookId, q, book.price⟩)
        | some ex =>
          let newQty := ex.quantity + q
          if book.stock < newQty then
            (db1, Except.error ⟨422, ErrCode.UNPROCESSABLE_ENTITY⟩)
          else
            ({ db1 with cartItems := db1.cartItems.map (fun it =>
                 if it.cartId == cart.id && it.bookId == bookId then
                   { it with quantity := newQty } else it) },
             Except.ok ⟨cart.id, bookId, newQty, ex.unitPrice⟩)

/-- cart.controller.ts `updateCartItemController`: set (not increment) the
quantity; 404 when no existing line. -/
def updateCartItem (userId bookId : Nat) (q : Int) (db : DB) :
    DB × Except ApiErr ItemPayload :=
  match parseQuantity q with
  | Except.error e => (db, Except.error e)
  | Except.ok q =>
    let dc := getOrCreateActiveCart db userId
    let db1 := dc.1
    let cart := dc.2
    match findLiveBook db1 bookId with
    | none => (db1, Except.error ⟨404, ErrCode.RESOURCE_NOT_FOUND⟩)
    | some book =>
      if book.stock < q then
        (db1, Except.error ⟨422, ErrCode.UNPROCESSABLE_ENTITY⟩)
      else
        match findCartItem db1 cart.id bookId with
        | none => (db1, Except.error ⟨404, ErrCode.RESOURCE_NOT_FOUND⟩)
        | some ex =>
          ({ db1 with cartItems := db1.cartItems.map (fun it =>
               if it.cartId == cart.id && it.bookId == bookId then
                 { it with quantity := q } else it) },
           Except.ok ⟨cart.id, bookId, q, ex.unitPrice⟩)

/-- cart.controller.ts `removeCartItemController`: `deleteMany` on the
composite key — idempotent, succeeds also when the line is absent. -/
def removeCartItem (userId bookId : Nat) (db : DB) : DB × Except ApiErr Unit :=
  let dc := getOrCreateActiveCart db userId
  let db1 := dc.1
  let cart := dc.2
  ({ db1 with cartItems := db1.cartItems.filter (fun it =>
       !(it.cartId == cart.id && it.bookId == bookId)) },
   Except.ok ())

/-- The page returned by `listCartController`: items on the page, the
page-scoped subtotal, and the cart-wide element count. -/
structure CartPage where
  cartId : Nat
  content : List CartItem
  subtotal : ℚ
  totalElements : Nat
  deriving DecidableEq, Repr

/-- Cart items of a cart whose book is not soft-deleted, in
`createdAt DESC` order (rows are appended in creation order with strictly
increasing `createdAt`, so the reversal realises the sort). -/
def liveCartItemsDesc (db : DB) (cartId : Nat) : List CartItem :=
  (db.cartItems.filter (fun it =>
    it.cartId == cartId &&
      (match lookupBook db it.bookId with
       | some b => b.deletedAt.isNone
       | none => false))).reverse

/-- cart.controller.ts `listCartController`: clamp page/size, get-or-create
the ACTIVE cart, paginate its live items, and compute
`subtotal = Σ unitPrice × quantity` over the returned page only. -/
def listCart (userId : Nat) (page size : Int) (db : DB) : DB × CartPage :=
  let p := max page 1
  let s := min (max size 1) 100
  let dc := getOrCreateActiveCart db userId
  let db1 := dc.1
  let cart := dc.2
  let items := liveCartItemsDesc db1 cart.id
  let pageItems := (items.drop ((p - 1) * s).toNat).take s.toNat
  let subtotal := (pageItems.map (fun it => it.unitPrice * (it.quantity : ℚ))).sum
  (db1, ⟨cart.id, pageItems, subtotal, items.length⟩)

/-- Items of one cart. -/
def cartItemsOf (db : DB) (cartId : Nat) : List CartItem :=
  db.cartItems.filter (fun it => it.cartId == cartId)

/-- Checkout response payload: `{ orderId, createdAt }`. -/
structure CheckoutPayload where
  orderId : Nat
  createdAt : Nat
  deriving DecidableEq, Repr

/-- The `include: { book }` join of the checkout's cart-item query.  A
missing book row is a foreign-key violation (`none`), impossible in
well-formed states. -/
def joinBooks (db : DB) : List CartItem → Option (List (CartItem × Book))
  | [] => some []
  | it :: rest =>
    match lookupBook db it.bookId with
    | none => none
    | some b => (joinBooks db rest).map (fun l => (it, b) :: l)

/-- Step 3–4 of the checkout transaction: iterate the joined items in order
and fail 422 on the first soft-deleted book or on the first
`book.stock < item.quantity`. -/
def validateItems : List (CartItem × Book) → Option ApiErr
  | [] => none
  | (it, b) :: rest =>
    if !b.deletedAt.isNone then some ⟨422, ErrCode.UNPROCESSABLE_ENTITY⟩
    else if b.stock < it.quantity then some ⟨422, ErrCode.UNPROCESSABLE_ENTITY⟩
    else validateItems rest

/-- `tx.book.update(where id, data: stock decrement q)`. -/
def decrementStock (db : DB) (bookId : Nat) (q : Int) : DB :=
  { db with books := db.books.map (fun b =>
      if b.id == bookId then { b with stock := b.stock - q } else b) }

/-- The `OrderItem` row written for a joined cart item: quantity and captured
unit price are copied, `bookTitleSnapshot` is the book's current title. -/
def mkOrderItem (orderId : Nat) (p : CartItem × Book) : OrderItem :=
  { orderId := orderId, bookId := p.1.bookId, quantity := p.1.quantity,
    unitPrice := p.1.unitPrice, bookTitleSnapshot := p.2.title }

/-- Step 6 of the checkout transaction: per joined cart item, create the
`OrderItem` and decrement the book's stock. -/
def writeOrderItems (orderId : Nat) : List (CartItem × Book) → DB → DB
  | [], db => db
  | p :: rest, db =>
    let db1 := { db with orderItems := db.orderItems ++ [mkOrderItem orderId p] }
    writeOrderItems orderId rest (decrementStock db1 p.1.bookId p.1.quantity)

/-- `tx.cart.update(where id, data: status)`. -/
def setCartStatus (db : DB) (cartId : Nat) (st : CartStatus) : DB :=
  { db with carts := db.carts.map (fun c =>
      if c.id == cartId then { c with status := st } else c) }

/-- order.controller.ts `createOrderFromCartController`: the whole checkout
runs in one `$transaction`, so an error leaves the state untouched.  Steps:
find the ACTIVE cart (404), load its items joined with books, 422 on empty
cart, validate deletion/stock per item (422), total from the captured
`unitPrice`s, create the PENDING/UNPAID order, write order items and
decrement stocks, flip the cart to CHECKED_OUT. -/
def createOrderFromCart (userId : Nat) (db : DB) :
    DB × Except ApiErr CheckoutPayload :=
  match findActiveCart db userId with
  | none => (db, Except.error ⟨404, ErrCode.RESOURCE_NOT_FOUND⟩)
  | some cart =>
    let items := cartItemsOf db cart.id
    match joinBooks db items with
    | none => (db, Except.error ⟨500, ErrCode.DB_CONSTRAINT⟩)
    | some jitems =>
      if jitems.isEmpty then
        (db, Except.error ⟨422, ErrCode.UNPROCESSABLE_ENTITY⟩)
      else
        match validateItems jitems with
        | some e => (db, Except.error e)
        | none =>
          let totalAmount :=
            (jitems.map (fun p => p.1.unitPrice * (p.1.quantity : ℚ))).sum
          let order : Order :=
            { id := db.nextOrderId, userId := userId, cartId := some cart.id,
              status := OrderStatus.PENDING,
              paymentStatus := PaymentStatus.UNPAID,
              totalAmount := totalAmount, placedAt := db.now,
              createdAt := db.now }
          let db1 := { db with orders := db.orders ++ [order],
                               nextOrderId := db.nextOrderId + 1 }
          let db2 := writeOrderItems order.id jitems db1
          let db3 := setCartStatus db2 cart.id CartStatus.CHECKED_OUT
          ({ db3 with now := db3.now + 1 },
           Except.ok ⟨order.id, order.createdAt⟩)

/-- JS `String.prototype.trim()`: strip whitespace from both ends
(structurally recursive so that concrete runs evaluate). -/
def strTrim (s : String) : String :=
  ⟨((s.data.dropWhile Char.isWhitespace).reverse.dropWhile
      Char.isWhitespace).reverse⟩

/-- Non-deleted reviews of a book (the aggregate's underlying set). -/
def liveReviews (db : DB) (bookId : Nat) : List Review :=
  db.reviews.filter (fun r => r.bookId == bookId && r.deletedAt.isNone)

/-- Arithmetic mean of the ratings of a review list, 0 when empty
(`agg._avg.rating ?? 0`). -/
def meanRating (l : List Review) : ℚ :=
  if l.length = 0 then 0
  else (l.map (fun r => (r.rating : ℚ))).sum / (l.length : ℚ)

/-- The aggregate recompute inlined in the review transactions: count and
mean over non-deleted reviews of the book, written onto the book row. -/
def recomputeAgg (db : DB) (bookId : Nat) : DB :=
  let live := liveReviews db bookId
  { db with books := db.books.map (fun b =>
      if b.id == bookId then
        { b with reviewCount := live.length, avgRating := meanRating live }
      else b) }

/-- review.controller.ts `createReviewForBookController`: validate content /
rating ∈ [1,5] / title length, require a live book (404), reject a second
review by the same user on the same book (the `(userId, bookId)` unique
index fires on soft-deleted rows too → 409), then insert the review and
recompute the book aggregates in one transaction. -/
def createReview (userId bookId : Nat) (rating : Int) (title : Option String)
    (content : String) (db : DB) : DB × Except ApiErr Nat :=
  if (strTrim content).length < 1 then
    (db, Except.error ⟨400, ErrCode.VALIDATION_FAILED⟩)
  else if rating < 1 || rating > 5 then
    (db, Except.error ⟨400, ErrCode.VALIDATION_FAILED⟩)
  else if (match title with | some t => decide (t.length > 100) | none => false) then
    (db, Except.error ⟨400, ErrCode.VALIDATION_FAILED⟩)
  else
    match findLiveBook db bookId with
    | none => (db, Except.error ⟨404, ErrCode.RESOURCE_NOT_FOUND⟩)
    | some _ =>
      if db.reviews.any (fun r => r.userId == userId && r.bookId == bookId) then
        (db, Except.error ⟨409, ErrCode.DUPLICATE_RESOURCE⟩)
      else
        let r : Review := { id := db.nextReviewId, userId := userId,
                            bookId := bookId, rating := rating, title := title,
                            content := strTrim content, likeCount := 0,
                            commentCount := 0, deletedAt := none }
        let db1 := { db with reviews := db.reviews ++ [r],
                             nextReviewId := db.nextReviewId + 1,
                             now := db.now + 1 }
        (recomputeAgg db1 bookId, Except.ok r.id)

/-- review.controller.ts `updateReviewController`: find the review by id
(404 when absent or soft-deleted), 403 for a non-author, 400 when no field
is given or a given field is invalid, then update the given fields and
recompute the book aggregates in one transaction. -/
def updateReview (userId reviewId : Nat) (rating : Option Int)
    (title : Option String) (content : Option String) (db : DB) :
    DB × Except ApiErr Unit :=
  match db.reviews.find? (fun r => r.id == reviewId) with
  | none => (db, Except.error ⟨404, ErrCode.RESOURCE_NOT_FOUND⟩)
  | some existing =>
    if !existing.deletedAt.isNone then
      (db, Except.error ⟨404, ErrCode.RESOURCE_NOT_FOUND⟩)
    else if existing.userId ≠ userId then
      (db, Except.error ⟨403, ErrCode.FORBIDDEN⟩)
    else if rating.isNone && title.isNone && content.isNone then
      (db, Except.error ⟨400, ErrCode.VALIDATION_FAILED⟩)
    else if (match rating with | some r => r < 1 || r > 5 | none => false) then
      (db, Except.error ⟨400, ErrCode.VALIDATION_FAILED⟩)
    else if (match title with | some t => decide (t.length > 100) | none => false) then
      (db, Except.error ⟨400, ErrCode.VALIDATION_FAILED⟩)
    else if (match content with
             | some c => decide ((strTrim c).length < 1) | none => false) then
      (db, Except.error ⟨400, ErrCode.VALIDATION_FAILED⟩)
    else
      let db1 := { db with reviews := db.reviews.map (fun r =>
        if r.id == reviewId then
          { r with rating := rating.getD r.rating,
                   title := (title.map some).getD r.title,
                   content := (content.map strTrim).getD r.content }
        else r) }
      (recomputeAgg db1 existing.bookId, Except.ok ())

/-- review.controller.ts `deleteReviewController`: find the review by id
(404), 403 for a non-author, success no-op when already soft-deleted;
otherwise, in one transaction, set the tombstone, delete the review's like
rows, and recompute the book aggregates. -/
def deleteReview (userId reviewId : Nat) (db : DB) : DB × Except ApiErr Unit :=
  match db.reviews.find? (fun r => r.id == reviewId) with
  | none => (db, Except.error ⟨404, ErrCode.RESOURCE_NOT_FOUND⟩)
  | some existing =>
    if existing.userId ≠ userId then
      (db, Except.error ⟨403, ErrCode.FORBIDDEN⟩)
    else if !existing.deletedAt.isNone then
      (db, Except.ok ())
    else
      let db1 := { db with
        reviews := db.reviews.map (fun r =>
          if r.id == reviewId then { r with deletedAt := some db.now } else r),
        reviewLikes := db.reviewLikes.filter (fun l => !(l.reviewId == reviewId)),
        now := db.now + 1 }
      (recomputeAgg db1 existing.bookId, Except.ok ())

/-- review.controller.ts `likeReviewController`: 404 unless the review
exists and is not soft-deleted; then, in one transaction, no-op when the
like row already exists, else create it and increment `likeCount`. -/
def likeReview (userId reviewId : Nat) (db : DB) : DB × Except ApiErr Unit :=
  match db.reviews.find? (fun r => r.id == reviewId && r.deletedAt.isNone) with
  | none => (db, Except.error ⟨404, ErrCode.RESOURCE_NOT_FOUND⟩)
  | some _ =>
    match db.reviewLikes.find? (fun l =>
        l.userId == userId && l.reviewId == reviewId) with
    | some _ => (db, Except.ok ())
    | none =>
      ({ db with
         reviewLikes := db.reviewLikes ++ [⟨userId, reviewId⟩],
         reviews := db.reviews.map (fun r =>
           if r.id == reviewId then { r with likeCount := r.likeCount + 1 }
           else r) },
       Except.ok ())

/-- review.controller.ts `unlikeReviewController`: no review lookup at all;
in one transaction, no-op success when no like row exists, else delete it
and decrement `likeCount` (the review row exists by the like row's FK; a
missing row would abort the transaction as a DB constraint error). -/
def unlikeReview (userId reviewId : Nat) (db : DB) : DB × Except ApiErr Unit :=
  match db.reviewLikes.find? (fun l =>
      l.userId == userId && l.reviewId == reviewId) with
  | none => (db, Except.ok ())
  | some _ =>
    if db.reviews.any (fun r => r.id == reviewId) then
      ({ db with
         reviewLikes := db.reviewLikes.filter (fun l =>
           !(l.userId == userId && l.reviewId == reviewId)),
         reviews := db.reviews.map (fun r =>
           if r.id == reviewId then { r with likeCount := r.likeCount - 1 }
           else r) },
       Except.ok ())
    else (db, Except.error ⟨500, ErrCode.DB_CONSTRAINT⟩)

/-- user.controller.ts `likeCommentController`: NO existence or soft-delete
check on the comment; in one transaction, no-op when the like row exists,
else create it and increment the comment's `likeCount`.  A missing comment
row (never merely a soft-deleted one) aborts via the like row's FK. -/
def likeComment (userId commentId : Nat) (db : DB) : DB × Except ApiErr Unit :=
  match db.commentLikes.find? (fun l =>
      l.userId == userId && l.commentId == commentId) with
  | some _ => (db, Except.ok ())
  | none =>
    if db.comments.any (fun c => c.id == commentId) then
      ({ db with
         commentLikes := db.commentLikes ++ [⟨userId, commentId⟩],
         comments := db.comments.map (fun c =>
           if c.id == commentId then { c with likeCount := c.likeCount + 1 }
           else c) },
       Except.ok ())
    else (db, Except.error ⟨500, ErrCode.DB_CONSTRAINT⟩)

/-- user.controller.ts `unlikeCommentController`: symmetric to
`likeComment`. -/
def unlikeComment (userId commentId : Nat) (db : DB) : DB × Except ApiErr Unit :=
  match db.commentLikes.find? (fun l =>
      l.userId == userId && l.commentId == commentId) with
  | none => (db, Except.ok ())
  | some _ =>
    if db.comments.any (fun c => c.id == commentId) then
      ({ db with
         commentLikes := db.commentLikes.filter (fun l =>
           !(l.userId == userId && l.commentId == commentId)),
         comments := db.comments.map (fun c =>
           if c.id == commentId then { c with likeCount := c.likeCount - 1 }
           else c) },
       Except.ok ())
    else (db, Except.error ⟨500, ErrCode.DB_CONSTRAINT⟩)

/-- One committed unit of work: a single top-level Prisma call or one
`$transaction` block. -/
def TxUnit : Type := DB → Except ApiErr DB

/-- Run a controller's units in order, stopping at the first error; the
state committed by earlier units persists. -/
def runUnits : List TxUnit → DB → DB × Except ApiErr Unit
  | [], db => (db, Except.ok ())
  | u :: rest, db =>
    match u db with
    | Except.error e => (db, Except.error e)
    | Except.ok db1 => runUnits rest db1

/-- `prisma.comment.create` of `createCommentController` (FK: the review row
must exist). -/
def insertCommentUnit (userId reviewId : Nat) (content : String) : TxUnit :=
  fun db =>
    if db.reviews.any (fun r => r.id == reviewId) then
      Except.ok { db with
        comments := db.comments ++
          [{ id := db.nextCommentId, reviewId := reviewId, userId := userId,
             content := strTrim content, likeCount := 0, deletedAt := none }],
        nextCommentId := db.nextCommentId + 1, now := db.now + 1 }
    else Except.error ⟨500, ErrCode.DB_CONSTRAINT⟩

/-- `prisma.review.update(commentCount increment)` of
`createCommentController` — a separate top-level call. -/
def incrCommentCountUnit (reviewId : Nat) : TxUnit :=
  fun db =>
    if db.reviews.any (fun r => r.id == reviewId) then
      Except.ok { db with reviews := db.reviews.map (fun r =>
        if r.id == reviewId then { r with commentCount := r.commentCount + 1 }
        else r) }
    else Except.error ⟨500, ErrCode.DB_CONSTRAINT⟩

/-- The write calls of `createCommentController`, in order.  The two calls
are issued independently, NOT inside a `$transaction`. -/
def createCommentUnits (userId reviewId : Nat) (content : String) :
    List TxUnit :=
  [insertCommentUnit userId reviewId content, incrCommentCountUnit reviewId]

/-- user.controller.ts `createCommentController`: validate content, 404
unless the review exists and is live, then issue the two write calls. -/
def createComment (userId reviewId : Nat) (content : String) (db : DB) :
    DB × Except ApiErr Unit :=
  if (strTrim content).length < 1 then
    (db, Except.error ⟨400, ErrCode.VALIDATION_FAILED⟩)
  else
    match db.reviews.find? (fun r =>
        r.id == reviewId && r.deletedAt.isNone) with
    | none => (db, Except.error ⟨404, ErrCode.RESOURCE_NOT_FOUND⟩)
    | some _ => runUnits (createCommentUnits userId reviewId content) db

/-- `prisma.comment.update(deletedAt)` of `deleteCommentController`. -/
def softDeleteCommentUnit (commentId : Nat) : TxUnit :=
  fun db =>
    if db.comments.any (fun c => c.id == commentId) then
      Except.ok { db with
        comments := db.comments.map (fun c =>
          if c.id == commentId then { c with deletedAt := some db.now } else c),
        now := db.now + 1 }
    else Except.error ⟨500, ErrCode.DB_CONSTRAINT⟩

/-- `prisma.review.update(commentCount decrement)` of
`deleteCommentController` — again a separate top-level call. -/
def decrCommentCountUnit (reviewId : Nat) : TxUnit :=
  fun db =>
    if db.reviews.any (fun r => r.id == reviewId) then
      Except.ok { db with reviews := db.reviews.map (fun r =>
        if r.id == reviewId then { r with commentCount := r.commentCount - 1 }
        else r) }
    else Except.error ⟨500, ErrCode.DB_CONSTRAINT⟩

/-- The write calls of `deleteCommentController`, in order; also issued
independently, NOT inside a `$transaction`. -/
def deleteCommentUnits (commentId reviewId : Nat) : List TxUnit :=
  [softDeleteCommentUnit commentId, decrCommentCountUnit reviewId]

/-- user.controller.ts `deleteCommentController`: find the comment (404),
403 for a non-author, success no-op when already soft-deleted, else issue
the two write calls. -/
def deleteComment (userId commentId : Nat) (db : DB) :
    DB × Except ApiErr Unit :=
  match db.comments.find? (fun c => c.id == commentId) with
  | none => (db, Except.error ⟨404, ErrCode.RESOURCE_NOT_FOUND⟩)
  | some existing =>
    if existing.userId ≠ userId then
      (db, Except.error ⟨403, ErrCode.FORBIDDEN⟩)
    else if !existing.deletedAt.isNone then
      (db, Except.ok ())
    else runUnits (deleteCommentUnits commentId existing.reviewId) db

/-- A client call against the cart/checkout surface. -/
inductive Op where
  | list (userId : Nat) (page size : Int)
  | add (userId bookId : Nat) (q : Int)
  | updateQty (userId bookId : Nat) (q : Int)
  | remove (userId bookId : Nat)
  | checkout (userId : Nat)

/-- The committed state after one call (an error response commits whatever
the call had already committed, e.g. a lazily created cart). -/
def stepOp (db : DB) : Op → DB
  | Op.list u p s => (listCart u p s db).1
  | Op.add u b q => (addCartItem u b q db).1
  | Op.updateQty u b q => (updateCartItem u b q db).1
  | Op.remove u b => (removeCartItem u b db).1
  | Op.checkout u => (createOrderFromCart u db).1

/-- The committed state after a call sequence. -/
def runOps (ops : List Op) (db : DB) : DB := ops.foldl stepOp db

/-- Well-formedness of a database state: unique book ids, non-negative
stocks, unique (cartId, bookId) cart-item keys, cart-item → book foreign
keys, and order-item ids below the order AUTO_INCREMENT counter. -/
def WF (db : DB) : Prop :=
  (db.books.map Book.id).Nodup ∧
  (∀ b ∈ db.books, 0 ≤ b.stock) ∧
  (db.cartItems.map (fun it => (it.cartId, it.bookId))).Nodup ∧
  (∀ it ∈ db.cartItems, (lookupBook db it.bookId).isSome = true) ∧
  (∀ oi ∈ db.orderItems, oi.orderId < db.nextOrderId)

instance (db : DB) : Decidable (WF db) := by
  unfold WF
  infer_instance

/-- The ACTIVE carts of a user. -/
def activeCartsOf (db : DB) (userId : Nat) : List Cart :=
  db.carts.filter (fun c =>
    c.userId == userId && decide (c.status = CartStatus.ACTIVE))

/-- Quantity of a book inside a joined item list (what the checkout's write
loop decrements in total for that book). -/
def qtyFor : List (CartItem × Book) → Nat → Int
  | [], _ => 0
  | p :: rest, bookId =>
    (if p.1.bookId == bookId then p.1.quantity else 0) + qtyFor rest bookId

/-- Total quantity of a book in the items of one order. -/
def orderedQty (db : DB) (orderId bookId : Nat) : Int :=
  ((db.orderItems.filter (fun oi =>
      oi.orderId == orderId && oi.bookId == bookId)).map
    OrderItem.quantity).sum

/-- The denormalized `reviewCount`/`avgRating` of every row of the book
agree with the aggregate over its non-deleted reviews. -/
def bookAggConsistent (db : DB) (bookId : Nat) : Prop :=
  ∀ b ∈ db.books, b.id = bookId →
    b.reviewCount = (liveReviews db bookId).length ∧
    b.avgRating = meanRating (liveReviews db bookId)

/-- `commentCount` of the review row found by id. -/
def commentCountOf (db : DB) (reviewId : Nat) : Option Int :=
  (db.reviews.find? (fun r => r.id == reviewId)).map Review.commentCount

/-- Number of non-deleted comments of a review. -/
def liveCommentCount (db : DB) (reviewId : Nat) : Nat :=
  (db.comments.filter (fun c =>
    c.reviewId == reviewId && c.deletedAt.isNone)).length

/-- `likeCount` of the comment row found by id. -/
def commentLikeCountOf (db : DB) (commentId : Nat) : Option Int :=
  (db.comments.find? (fun c => c.id == commentId)).map Comment.likeCount

/-- The empty store. -/
def emptyDB : DB :=
  { books := [], carts := [], cartItems := [], orders := [], orderItems := [],
    reviews := [], reviewLikes := [], comments := [], commentLikes := [],
    nextCartId := 1, nextOrderId := 1, nextReviewId := 1, nextCommentId := 1,
    now := 0 }

/-- Concrete store for the checkout scenarios: book 1 (stock 5, price
10000), user 1 with an ACTIVE cart holding 3 units captured at 10000. -/
def dbW : DB :=
  { emptyDB with
    books := [{ id := 1, title := "Dune", price := 10000, stock := 5,
                deletedAt := none, avgRating := 0, reviewCount := 0 }],
    carts := [{ id := 1, userId := 1, status := CartStatus.ACTIVE,
                createdAt := 0 }],
    cartItems := [{ cartId := 1, bookId := 1, quantity := 3,
                    unitPrice := 10000, createdAt := 1 }],
    nextCartId := 2, now := 2 }

/-- Like `dbW` but the cart asks for 9 units of a stock-5 book. -/
def dbOver : DB :=
  { dbW with cartItems := [{ cartId := 1, bookId := 1, quantity := 9,
                             unitPrice := 10000, createdAt := 1 }] }

/-- Two-line cart: books 1 and 2 (prices 100 and 200), one unit each, for
the page-scoped-subtotal scenario. -/
def dbTwo : DB :=
  { emptyDB with
    books := [{ id := 1, title := "A", price := 100, stock := 5,
                deletedAt := none, avgRating := 0, reviewCount := 0 },
              { id := 2, title := "B", price := 200, stock := 5,
                deletedAt := none, avgRating := 0, reviewCount := 0 }],
    carts := [{ id := 1, userId := 1, status := CartStatus.ACTIVE,
                createdAt := 0 }],
    cartItems := [{ cartId := 1, bookId := 1, quantity := 1,
                    unitPrice := 100, createdAt := 1 },
                  { cartId := 1, bookId := 2, quantity := 1,
                    unitPrice := 200, createdAt := 2 }],
    nextCartId := 2, now := 3 }

/-- Store with one live review (id 1, commentCount 0) by user 2 on book 1,
and book 1 carrying the matching aggregates. -/
def dbRev : DB :=
  { emptyDB with
    books := [{ id := 1, title := "Dune", price := 10000, stock := 5,
                deletedAt := none, avgRating := 5, reviewCount := 1 }],
    reviews := [{ id := 1, userId := 2, bookId := 1, rating := 5,
                  title := none, content := "great", likeCount := 0,
                  commentCount := 0, deletedAt := none }],
    nextReviewId := 2, now := 1 }

/-- Store with a soft-deleted review (id 1) and a soft-deleted comment
(id 1, likeCount 0) under it. -/
def dbDel : DB :=
  { emptyDB with
    reviews := [{ id := 1, userId := 2, bookId := 1, rating := 4,
                  title := none, content := "old", likeCount := 1,
                  commentCount := 1, deletedAt := some 5 }],
    comments := [{ id := 1, reviewId := 1, userId := 3, content := "hello",
                   likeCount := 0, deletedAt := some 6 }],
    nextReviewId := 2, nextCommentId := 2, now := 7 }

/-- Store for the comment-counter drift: live review 1 (commentCount 0) and
a live comment 1 by user 3 on review 1 with the counter already at 1. -/
def dbCom : DB :=
  { emptyDB with
    reviews := [{ id := 1, userId := 2, bookId := 1, rating := 4,
                  title := none, content := "ok", likeCount := 0,
                  commentCount := 1, deletedAt := none }],
    comments := [{ id := 1, reviewId := 1, userId := 3, content := "hello",
                   likeCount := 0, deletedAt := none }],
    nextReviewId := 2, nextCommentId := 2, now := 7 }

/-- Store with one live review (id 1, liked by user 1) and one live comment
(id 1, liked by user 1). -/
def dbLike : DB :=
  { emptyDB with
    reviews := [{ id := 1, userId := 2, bookId := 1, rating := 4,
                  title := none, content := "ok", likeCount := 1,
                  commentCount := 1, deletedAt := none }],
    comments := [{ id := 1, reviewId := 1, userId := 3, content := "hello",
                   likeCount := 1, deletedAt := none }],
    reviewLikes := [{ userId := 1, reviewId := 1 }],
    commentLikes := [{ userId := 1, commentId := 1 }],
    nextReviewId := 2, nextCommentId := 2, now := 7 }

/-! ## Generic helper lemmas -/

theorem find?_map_pred {α : Type} (l : List α) (f : α → α) (p : α → Bool)
    (h : ∀ a, p (f a) = p a) :
    (l.map f).find? p = (l.find? p).map f := by
  rw [List.find?_map]
  have : p ∘ f = p := funext h
  rw [this]

theorem find?_isSome_weaken {α : Type} (l : List α) (p q : α → Bool)
    (h : ∀ a, p a = true → q a = true) (a : α) (ha : l.find? p = some a) :
    (l.find? q).isSome = true := by
  rw [List.find?_isSome]
  exact ⟨a, List.mem_of_find?_eq_some ha, h a (List.find?_some ha)⟩

/-! ## Frame lemmas for the cart operations -/

theorem getOrCreate_books (db : DB) (u : Nat) :
    ((getOrCreateActiveCart db u).1).books = db.books := by
  unfold getOrCreateActiveCart
  cases findActiveCart db u <;> rfl

theorem getOrCreate_cartItems (db : DB) (u : Nat) :
    ((getOrCreateActiveCart db u).1).cartItems = db.cartItems := by
  unfold getOrCreateActiveCart
  cases findActiveCart db u <;> rfl

theorem getOrCreate_orderItems (db : DB) (u : Nat) :
    ((getOrCreateActiveCart db u).1).orderItems = db.orderItems := by
  unfold getOrCreateActiveCart
  cases findActiveCart db u <;> rfl

theorem getOrCreate_nextOrderId (db : DB) (u : Nat) :
    ((getOrCreateActiveCart db u).1).nextOrderId = db.nextOrderId := by
  unfold getOrCreateActiveCart
  cases findActiveCart db u <;> rfl

theorem findLiveBook_books_congr (db db' : DB) (bid : Nat)
    (h : db'.books = db.books) : findLiveBook db' bid = findLiveBook db bid := by
  unfold findLiveBook
  rw [h]

theorem findCartItem_items_congr (db db' : DB) (cid bid : Nat)
    (h : db'.cartItems = db.cartItems) :
    findCartItem db' cid bid = findCartItem db cid bid := by
  unfold findCartItem
  rw [h]

theorem findLiveBook_lookup_isSome (db : DB) (bid : Nat) (b : Book)
    (h : findLiveBook db bid = some b) : (lookupBook db bid).isSome = true := by
  refine find?_isSome_weaken db.books _ _ (fun a ha => ?_) b h
  rw [Bool.and_eq_true] at ha
  exact ha.1

/-! ## The checkout write loop -/

theorem qtyFor_nil (bid : Nat) : qtyFor [] bid = 0 := rfl

theorem qtyFor_zero_of_not_mem (l : List (CartItem × Book)) (bid : Nat)
    (h : bid ∉ l.map (fun p => p.1.bookId)) : qtyFor l bid = 0 := by
  induction l with
  | nil => rfl
  | cons p rest ih =>
    simp only [List.map_cons, List.mem_cons, not_or] at h
    simp only [qtyFor]
    have hne : ¬ ((p.1.bookId == bid) = true) := by
      intro he
      exact h.1 (beq_iff_eq.mp he).symm
    rw [if_neg hne, ih h.2, add_zero]

theorem qtyFor_eq_of_nodup (l : List (CartItem × Book)) (p : CartItem × Book)
    (hnd : (l.map (fun q => q.1.bookId)).Nodup) (hp : p ∈ l) :
    qtyFor l p.1.bookId = p.1.quantity := by
  induction l with
  | nil => cases hp
  | cons q rest ih =>
    simp only [List.map_cons, List.nodup_cons] at hnd
    rcases List.mem_cons.mp hp with h | h
    · subst h
      simp only [qtyFor]
      rw [if_pos (by simp), qtyFor_zero_of_not_mem rest _ hnd.1, add_zero]
    · have hne : q.1.bookId ≠ p.1.bookId := by
        intro he
        exact hnd.1 (he ▸ List.mem_map_of_mem (fun r => r.1.bookId) h)
      simp only [qtyFor]
      rw [if_neg (by simpa using hne), ih hnd.2 h, zero_add]

theorem writeOrderItems_eq (oid : Nat) (l : List (CartItem × Book)) (db : DB) :
    writeOrderItems oid l db =
      { db with
        books := db.books.map (fun b =>
          { b with stock := b.stock - qtyFor l b.id }),
        orderItems := db.orderItems ++ l.map (mkOrderItem oid) } := by
  induction l generalizing db with
  | nil =>
    have hmap : db.books.map
        (fun b => { b with stock := b.stock - qtyFor [] b.id }) = db.books := by
      rw [show (fun b : Book => { b with stock := b.stock - qtyFor [] b.id })
            = id from funext fun b => by simp [qtyFor_nil]]
      exact List.map_id _
    simp only [writeOrderItems, List.map_nil, List.append_nil, hmap]
  | cons p rest ih =>
    simp only [writeOrderItems]
    rw [ih]
    simp only [decrementStock]
    cases db
    simp only [DB.mk.injEq, List.map_map, List.append_assoc,
      List.singleton_append, List.map_cons, and_true, true_and]
    apply List.map_congr_left
    intro b _
    simp only [Function.comp]
    by_cases hb : b.id = p.1.bookId
    · simp [qtyFor, hb, sub_sub]
    · simp [qtyFor, hb, Ne.symm hb]

/-! ## Checkout validation lemmas -/

theorem validateItems_none_iff (l : List (CartItem × Book)) :
    validateItems l = none ↔
      ∀ p ∈ l, p.2.deletedAt = none ∧ p.1.quantity ≤ p.2.stock := by
  induction l with
  | nil => simp [validateItems]
  | cons p rest ih =>
    simp only [validateItems, List.mem_cons]
    by_cases hdel : p.2.deletedAt.isNone
    · rw [if_neg (by simp [hdel])]
      by_cases hstock : p.2.stock < p.1.quantity
      · rw [if_pos hstock]
        constructor
        · intro h
          cases h
        · intro h
          exact absurd ((h p (Or.inl rfl)).2) (not_le.mpr hstock)
      · rw [if_neg hstock, ih]
        constructor
        · intro h q hq
          rcases hq with hq | hq
          · subst hq
            exact ⟨Option.isNone_iff_eq_none.mp hdel, not_lt.mp hstock⟩
          · exact h q hq
        · intro h q hq
          exact h q (Or.inr hq)
    · rw [if_pos (by simp [hdel])]
      constructor
      · intro h
        cases h
      · intro h
        exact absurd ((h p (Or.inl rfl)).1)
          (by simpa [Option.isNone_iff_eq_none] using hdel)

theorem validateItems_some_val (l : List (CartItem × Book)) (e : ApiErr)
    (h : validateItems l = some e) :
    e = ⟨422, ErrCode.UNPROCESSABLE_ENTITY⟩ := by
  induction l with
  | nil => cases h
  | cons p rest ih =>
    simp only [validateItems] at h
    split at h
    · cases h
      rfl
    · split at h
      · cases h
        rfl
      · exact ih h

theorem validateItems_isSome_of_bad (l : List (CartItem × Book))
    (p : CartItem × Book) (hp : p ∈ l)
    (hbad : ¬ p.2.deletedAt = none ∨ p.2.stock < p.1.quantity) :
    (validateItems l).isSome = true := by
  rw [Option.isSome_iff_ne_none]
  intro hnone
  have := (validateItems_none_iff l).mp hnone p hp
  rcases hbad with h | h
  · exact h this.1
  · exact absurd this.2 (not_le.mpr h)

/-! ## Join lemmas -/

theorem joinBooks_some (db : DB) (l : List CartItem)
    (jl : List (CartItem × Book)) (h : joinBooks db l = some jl) :
    jl.map Prod.fst = l ∧ ∀ p ∈ jl, lookupBook db p.1.bookId = some p.2 := by
  induction l generalizing jl with
  | nil =>
    simp only [joinBooks] at h
    cases h
    simp
  | cons it rest ih =>
    simp only [joinBooks] at h
    cases hb : lookupBook db it.bookId with
    | none => rw [hb] at h; cases h
    | some b =>
      rw [hb] at h
      cases hj : joinBooks db rest with
      | none => rw [hj] at h; cases h
      | some jrest =>
        rw [hj] at h
        simp only [Option.map_some] at h
        cases h
        obtain ⟨ih1, ih2⟩ := ih jrest hj
        refine ⟨by simp [ih1], ?_⟩
        intro p hp
        rcases List.mem_cons.mp hp with hp | hp
        · subst hp
          exact hb
        · exact ih2 p hp

theorem joinBooks_isSome (db : DB) (l : List CartItem)
    (h : ∀ it ∈ l, (lookupBook db it.bookId).isSome = true) :
    ∃ jl, joinBooks db l = some jl := by
  induction l with
  | nil => exact ⟨[], rfl⟩
  | cons it rest ih =>
    obtain ⟨b, hb⟩ := Option.isSome_iff_exists.mp (h it (List.mem_cons_self it rest))
    obtain ⟨jrest, hj⟩ := ih (fun x hx => h x (List.mem_cons_of_mem it hx))
    exact ⟨(it, b) :: jrest, by simp [joinBooks, hb, hj]⟩

/-! ## Checkout case analysis -/

theorem checkout_no_cart (db : DB) (u : Nat)
    (h : findActiveCart db u = none) :
    createOrderFromCart u db =
      (db, Except.error ⟨404, ErrCode.RESOURCE_NOT_FOUND⟩) := by
  simp [createOrderFromCart, h]

theorem checkout_empty (db : DB) (u : Nat) (cart : Cart)
    (h1 : findActiveCart db u = some cart)
    (h2 : cartItemsOf db cart.id = []) :
    createOrderFromCart u db =
      (db, Except.error ⟨422, ErrCode.UNPROCESSABLE_ENTITY⟩) := by
  simp [createOrderFromCart, h1, h2, joinBooks]

theorem checkout_invalid (db : DB) (u : Nat) (cart : Cart)
    (jl : List (CartItem × Book)) (e : ApiErr)
    (h1 : findActiveCart db u = some cart)
    (h2 : joinBooks db (cartItemsOf db cart.id) = some jl)
    (h3 : validateItems jl = some e) :
    createOrderFromCart u db = (db, Except.error e) := by
  cases jl with
  | nil => cases h3
  | cons p rest => simp [createOrderFromCart, h1, h2, h3]

theorem checkout_success (db : DB) (u : Nat) (cart : Cart)
    (jl : List (CartItem × Book))
    (h1 : findActiveCart db u = some cart)
    (h2 : joinBooks db (cartItemsOf db cart.id) = some jl)
    (h3 : jl ≠ [])
    (h4 : validateItems jl = none) :
    createOrderFromCart u db =
      ({ db with
          books := db.books.map (fun b =>
            { b with stock := b.stock - qtyFor jl b.id }),
          carts := db.carts.map (fun c =>
            if c.id == cart.id then
              { c with status := CartStatus.CHECKED_OUT }
            else c),
          orders := db.orders ++
            [{ id := db.nextOrderId, userId := u, cartId := some cart.id,
               status := OrderStatus.PENDING,
               paymentStatus := PaymentStatus.UNPAID,
               totalAmount :=
                 (jl.map fun p => p.1.unitPrice * (p.1.quantity : ℚ)).sum,
               placedAt := db.now, createdAt := db.now }],
          orderItems := db.orderItems ++ jl.map (mkOrderItem db.nextOrderId),
          nextOrderId := db.nextOrderId + 1,
          now := db.now + 1 },
       Except.ok ⟨db.nextOrderId, db.now⟩) := by
  cases jl with
  | nil => exact absurd rfl h3
  | cons p rest =>
    simp only [createOrderFromCart, h1, h2, List.isEmpty_cons, h4,
      Bool.false_eq_true, if_false]
    rw [writeOrderItems_eq]
    simp only [setCartStatus]

theorem checkout_cases (db : DB) (u : Nat) :
    (∃ e, createOrderFromCart u db = (db, Except.error e)) ∨
    (∃ cart jl, findActiveCart db u = some cart ∧
      joinBooks db (cartItemsOf db cart.id) = some jl ∧ jl ≠ [] ∧
      validateItems jl = none ∧
      createOrderFromCart u db =
        ({ db with
            books := db.books.map (fun b =>
              { b with stock := b.stock - qtyFor jl b.id }),
            carts := db.carts.map (fun c =>
              if c.id == cart.id then
                { c with status := CartStatus.CHECKED_OUT }
              else c),
            orders := db.orders ++
              [{ id := db.nextOrderId, userId := u, cartId := some cart.id,
                 status := OrderStatus.PENDING,
                 paymentStatus := PaymentStatus.UNPAID,
                 totalAmount :=
                   (jl.map fun p => p.1.unitPrice * (p.1.quantity : ℚ)).sum,
                 placedAt := db.now, createdAt := db.now }],
            orderItems := db.orderItems ++ jl.map (mkOrderItem db.nextOrderId),
            nextOrderId := db.nextOrderId + 1,
            now := db.now + 1 },
         Except.ok ⟨db.nextOrderId, db.now⟩)) := by
  cases hc : findActiveCart db u with
  | none =>
    exact Or.inl ⟨⟨404, ErrCode.RESOURCE_NOT_FOUND⟩, checkout_no_cart db u hc⟩
  | some cart =>
    cases hj : joinBooks db (cartItemsOf db cart.id) with
    | none =>
      exact Or.inl ⟨⟨500, ErrCode.DB_CONSTRAINT⟩,
        by simp [createOrderFromCart, hc, hj]⟩
    | some jl =>
      cases jl with
      | nil =>
        refine Or.inl ⟨⟨422, ErrCode.UNPROCESSABLE_ENTITY⟩, ?_⟩
        have hempty : cartItemsOf db cart.id = [] := by
          have hfst := (joinBooks_some db _ [] hj).1
          simpa using hfst.symm
        exact checkout_empty db u cart hc hempty
      | cons p rest =>
        cases hv : validateItems (p :: rest) with
        | some e =>
          exact Or.inl ⟨e, checkout_invalid db u cart _ e hc hj hv⟩
        | none =>
          exact Or.inr ⟨cart, p :: rest, rfl, hj, by simp, hv,
            checkout_success db u cart _ hc hj (by simp) hv⟩

theorem checkout_err_state (db : DB) (u : Nat) (e : ApiErr)
    (h : (createOrderFromCart u db).2 = Except.error e) :
    (createOrderFromCart u db).1 = db := by
  rcases checkout_cases db u with ⟨e', he⟩ | ⟨cart, jl, _, _, _, _, heq⟩
  · rw [he]
  · rw [heq] at h
    cases h

theorem checkout_ok_inv (db db' : DB) (u : Nat) (pay : CheckoutPayload)
    (h : createOrderFromCart u db = (db', Except.ok pay)) :
    ∃ cart jl, findActiveCart db u = some cart ∧
      joinBooks db (cartItemsOf db cart.id) = some jl ∧ jl ≠ [] ∧
      validateItems jl = none ∧
      pay = ⟨db.nextOrderId, db.now⟩ ∧
      db' = { db with
        books := db.books.map (fun b =>
          { b with stock := b.stock - qtyFor jl b.id }),
        carts := db.carts.map (fun c =>
          if c.id == cart.id then { c with status := CartStatus.CHECKED_OUT }
          else c),
        orders := db.orders ++
          [{ id := db.nextOrderId, userId := u, cartId := some cart.id,
             status := OrderStatus.PENDING,
             paymentStatus := PaymentStatus.UNPAID,
             totalAmount :=
               (jl.map fun p => p.1.unitPrice * (p.1.quantity : ℚ)).sum,
             placedAt := db.now, createdAt := db.now }],
        orderItems := db.orderItems ++ jl.map (mkOrderItem db.nextOrderId),
        nextOrderId := db.nextOrderId + 1,
        now := db.now + 1 } := by
  rcases checkout_cases db u with ⟨e', he⟩ | ⟨cart, jl, hc, hj, hne, hv, heq⟩
  · rw [he] at h
    exact absurd (congrArg Prod.snd h) (by simp)
  · rw [heq] at h
    have h1 := congrArg Prod.fst h
    have h2 := congrArg Prod.snd h
    simp only at h1 h2
    injection h2 with h2
    subst h2
    exact ⟨cart, jl, hc, hj, hne, hv, rfl, h1.symm⟩

/-! ## Claim theorems -/

/-- C1: `createOrderFromCart` is atomic: for every user and every store
state, if checkout fails at any validation step (no ACTIVE cart, empty cart,
a soft-deleted book in the cart, or `book.stock < item.quantity` for some
item), then the operation returns an error and the state is untouched — no
Order or OrderItem row is created, no book's stock changes, and the cart's
status (ACTIVE) is unchanged. -/
theorem checkout_atomic_on_failure (db : DB) (u : Nat) :
    (∀ e, (createOrderFromCart u db).2 = Except.error e →
       (createOrderFromCart u db).1 = db) ∧
    (findActiveCart db u = none →
       createOrderFromCart u db =
         (db, Except.error ⟨404, ErrCode.RESOURCE_NOT_FOUND⟩)) ∧
    (∀ cart, findActiveCart db u = some cart →
       cartItemsOf db cart.id = [] →
       createOrderFromCart u db =
         (db, Except.error ⟨422, ErrCode.UNPROCESSABLE_ENTITY⟩)) ∧
    (∀ cart jl, findActiveCart db u = some cart →
       joinBooks db (cartItemsOf db cart.id) = some jl →
       (∃ p ∈ jl, ¬ p.2.deletedAt = none ∨ p.2.stock < p.1.quantity) →
       ∃ e, createOrderFromCart u db = (db, Except.error e) ∧
         e.status = 422 ∧ e.code = ErrCode.UNPROCESSABLE_ENTITY) := by
  refine ⟨fun e he => checkout_err_state db u e he, checkout_no_cart db u,
    fun cart ha hb => checkout_empty db u cart ha hb, ?_⟩
  intro cart jl h1 h2 hbad
  obtain ⟨p, hp, hb⟩ := hbad
  have hs := validateItems_isSome_of_bad jl p hp hb
  obtain ⟨e, he⟩ := Option.isSome_iff_exists.mp hs
  refine ⟨e, checkout_invalid db u cart jl e h1 h2 he, ?_⟩
  have hval := validateItems_some_val jl e he
  subst hval
  exact ⟨rfl, rfl⟩

/-- Witness for C1: checkout of the over-stock cart `dbOver` fails and
leaves the state unchanged; user 2 has no ACTIVE cart in `dbW`, so checkout
fails with RESOURCE_NOT_FOUND and leaves the state unchanged. -/
theorem checkout_atomic_on_failure_witness :
    (createOrderFromCart 1 dbOver).1 = dbOver ∧
    createOrderFromCart 2 dbW =
      (dbW, Except.error ⟨404, ErrCode.RESOURCE_NOT_FOUND⟩) :=
  ⟨(checkout_atomic_on_failure dbOver 1).1 ⟨422, ErrCode.UNPROCESSABLE_ENTITY⟩
      (by decide),
   (checkout_atomic_on_failure dbW 2).2.1 (by decide)⟩

/-- C2: for a user with an ACTIVE cart whose items all pass validation, a
successful checkout returns the new order id and creation timestamp, creates
an Order with status PENDING / paymentStatus UNPAID whose totalAmount is the
sum of captured `unitPrice × quantity` over the cart items (not the books'
live prices), creates one OrderItem per cart item with `bookTitleSnapshot`
equal to the book's current title, decrements each book's stock by the
ordered quantity, flips the cart to CHECKED_OUT, and a second checkout by
the same user then fails with RESOURCE_NOT_FOUND. -/
theorem checkout_success_effects (db : DB) (u : Nat) (cart : Cart)
    (jl : List (CartItem × Book))
    (h1 : findActiveCart db u = some cart)
    (h2 : ∀ c ∈ db.carts, c.userId = u → c.status = CartStatus.ACTIVE →
       c.id = cart.id)
    (h3 : joinBooks db (cartItemsOf db cart.id) = some jl)
    (h4 : jl ≠ [])
    (h5 : ∀ p ∈ jl, p.2.deletedAt = none ∧ p.1.quantity ≤ p.2.stock)
    (h6 : ((cartItemsOf db cart.id).map CartItem.bookId).Nodup) :
    (createOrderFromCart u db).2 =
      Except.ok ⟨db.nextOrderId, db.now⟩ ∧
    (∀ p ∈ jl, lookupBook db p.1.bookId = some p.2) ∧
    (createOrderFromCart u db).1.orders = db.orders ++
      [{ id := db.nextOrderId, userId := u, cartId := some cart.id,
         status := OrderStatus.PENDING,
         paymentStatus := PaymentStatus.UNPAID,
         totalAmount :=
           (jl.map fun p => p.1.unitPrice * (p.1.quantity : ℚ)).sum,
         placedAt := db.now, createdAt := db.now }] ∧
    (createOrderFromCart u db).1.orderItems =
      db.orderItems ++ jl.map (mkOrderItem db.nextOrderId) ∧
    (∀ p ∈ jl, lookupBook (createOrderFromCart u db).1 p.1.bookId =
       some { p.2 with stock := p.2.stock - p.1.quantity }) ∧
    (∀ c ∈ (createOrderFromCart u db).1.carts, c.id = cart.id →
       c.status = CartStatus.CHECKED_OUT) ∧
    findActiveCart (createOrderFromCart u db).1 u = none ∧
    createOrderFromCart u (createOrderFromCart u db).1 =
      ((createOrderFromCart u db).1,
        Except.error ⟨404, ErrCode.RESOURCE_NOT_FOUND⟩) := by
  have hvp : validateItems jl = none := (validateItems_none_iff jl).mpr h5
  have hs := checkout_success db u cart jl h1 h3 h4 hvp
  obtain ⟨hfst, hmem⟩ := joinBooks_some db _ jl h3
  have hnd : (jl.map (fun q => q.1.bookId)).Nodup := by
    have he : jl.map (fun q => q.1.bookId) =
        (cartItemsOf db cart.id).map CartItem.bookId := by
      rw [← hfst, List.map_map]
      rfl
    rw [he]
    exact h6
  have hbid : ∀ p ∈ jl, p.2.id = p.1.bookId := by
    intro p hp
    have hx := hmem p hp
    unfold lookupBook at hx
    have hpred : (p.2.id == p.1.bookId) = true :=
      @List.find?_some Book (fun b => b.id == p.1.bookId) p.2 db.books hx
    exact beq_iff_eq.mp hpred
  have hcartseq : (createOrderFromCart u db).1.carts = db.carts.map (fun c =>
      if c.id == cart.id then { c with status := CartStatus.CHECKED_OUT }
      else c) := by
    rw [hs]
  have hactive : findActiveCart (createOrderFromCart u db).1 u = none := by
    unfold findActiveCart
    rw [hcartseq]
    refine List.find?_eq_none.mpr ?_
    intro c' hc'
    obtain ⟨c0, hc0, rfl⟩ := List.mem_map.mp hc'
    by_cases hid : (c0.id == cart.id) = true
    · simp [hid]
    · rw [if_neg hid]
      intro hpred
      rw [Bool.and_eq_true] at hpred
      have hu : c0.userId = u := beq_iff_eq.mp hpred.1
      have hst : c0.status = CartStatus.ACTIVE := of_decide_eq_true hpred.2
      exact hid (beq_iff_eq.mpr (h2 c0 hc0 hu hst))
  refine ⟨by rw [hs], hmem, by rw [hs], by rw [hs], ?_, ?_, hactive,
    checkout_no_cart _ u hactive⟩
  · intro p hp
    have hlook : lookupBook (createOrderFromCart u db).1 p.1.bookId =
        (lookupBook db p.1.bookId).map
          (fun b => { b with stock := b.stock - qtyFor jl b.id }) := by
      rw [hs]
      unfold lookupBook
      exact find?_map_pred db.books _ _ (fun a => rfl)
    have hq : qtyFor jl p.2.id = p.1.quantity := by
      rw [hbid p hp]
      exact qtyFor_eq_of_nodup jl p hnd hp
    rw [hlook, hmem p hp]
    simp only [Option.map_some', hq]
  · intro c hc hcid
    rw [hcartseq] at hc
    obtain ⟨c0, hc0, rfl⟩ := List.mem_map.mp hc
    by_cases hid : (c0.id == cart.id) = true
    · rw [if_pos hid]
    · rw [if_neg hid] at hcid ⊢
      exact absurd (beq_iff_eq.mpr hcid) hid

/-- Witness for C2: on the concrete store `dbW` (book 1: stock 5, price
10000; user 1's ACTIVE cart holds 3 units), checkout returns order id 1 with
the creation timestamp, and no ACTIVE cart remains for user 1. -/
theorem checkout_success_effects_witness :
    (createOrderFromCart 1 dbW).2 = Except.ok ⟨1, 2⟩ ∧
    findActiveCart (createOrderFromCart 1 dbW).1 1 = none := by
  have h := checkout_success_effects dbW 1 ⟨1, 1, CartStatus.ACTIVE, 0⟩
    [(⟨1, 1, 3, 10000, 1⟩, ⟨1, "Dune", 10000, 5, none, 0, 0⟩)]
    (by decide) (by decide) (by decide) (by decide) (by decide) (by decide)
  exact ⟨h.1, h.2.2.2.2.2.2.1⟩

/-! ## Helpers for the state invariants -/

theorem lookupBook_congr (db db' : DB) (h : db'.books = db.books) (bid : Nat) :
    lookupBook db' bid = lookupBook db bid := by
  unfold lookupBook
  rw [h]

theorem lookupBook_map_books (db db' : DB) (f : Book → Book)
    (hid : ∀ b, (f b).id = b.id) (hdb : db'.books = db.books.map f)
    (bid : Nat) : lookupBook db' bid = (lookupBook db bid).map f := by
  unfold lookupBook
  rw [hdb]
  refine find?_map_pred db.books f (fun b => b.id == bid) (fun a => ?_)
  show ((f a).id == bid) = (a.id == bid)
  rw [hid a]

theorem map_books_id_preserve (l : List Book) (f : Book → Book)
    (h : ∀ b, (f b).id = b.id) : (l.map f).map Book.id = l.map Book.id := by
  rw [List.map_map]
  exact List.map_congr_left (fun b _ => h b)

theorem find?_id_self (l : List Book) (b : Book)
    (hnd : (l.map Book.id).Nodup) (hb : b ∈ l) :
    l.find? (fun x => x.id == b.id) = some b := by
  induction l with
  | nil => cases hb
  | cons c rest ih =>
    simp only [List.map_cons, List.nodup_cons] at hnd
    rcases List.mem_cons.mp hb with h | h
    · subst h
      simp
    · have hne : ¬ (c.id == b.id) = true := by
        intro he
        apply hnd.1
        rw [beq_iff_eq.mp he]
        exact List.mem_map_of_mem Book.id h
      have hf : (c.id == b.id) = false := eq_false_of_ne_true hne
      rw [List.find?_cons, hf]
      exact ih hnd.2 h

theorem lookupBook_self (db : DB) (b : Book)
    (hnd : (db.books.map Book.id).Nodup) (hb : b ∈ db.books) :
    lookupBook db b.id = some b :=
  find?_id_self db.books b hnd hb

theorem filter_bookIds_nodup (l : List CartItem) (cid : Nat)
    (h : (l.map (fun it => (it.cartId, it.bookId))).Nodup) :
    ((l.filter (fun it => it.cartId == cid)).map CartItem.bookId).Nodup := by
  induction l with
  | nil => simp
  | cons it rest ih =>
    simp only [List.map_cons, List.nodup_cons] at h
    by_cases hc : (it.cartId == cid) = true
    · rw [List.filter_cons, if_pos hc]
      simp only [List.map_cons, List.nodup_cons]
      refine ⟨?_, ih h.2⟩
      intro hmemb
      obtain ⟨it', hit', hbid⟩ := List.mem_map.mp hmemb
      have hit'mem := (List.mem_filter.mp hit').1
      have hc' : (it'.cartId == cid) = true := (List.mem_filter.mp hit').2
      apply h.1
      have hpair : (it.cartId, it.bookId) = (it'.cartId, it'.bookId) := by
        have e1 : it.cartId = it'.cartId := by
          rw [beq_iff_eq.mp hc, ← beq_iff_eq.mp hc']
        have e2 : it.bookId = it'.bookId := hbid.symm
        rw [e1, e2]
      rw [hpair]
      exact List.mem_map_of_mem _ hit'mem
    · rw [List.filter_cons, if_neg hc]
      exact ih h.2

theorem cartItemsOf_bookIds_nodup (db : DB) (cid : Nat)
    (h : (db.cartItems.map (fun it => (it.cartId, it.bookId))).Nodup) :
    ((cartItemsOf db cid).map CartItem.bookId).Nodup :=
  filter_bookIds_nodup db.cartItems cid h

theorem find?_id_isSome_map (l : List Book) (f : Book → Book)
    (hid : ∀ b, (f b).id = b.id) (bid : Nat)
    (h : (l.find? (fun x => x.id == bid)).isSome = true) :
    ((l.map f).find? (fun x => x.id == bid)).isSome = true := by
  rw [find?_map_pred l f (fun x => x.id == bid)
    (fun a => by show ((f a).id == bid) = (a.id == bid); rw [hid a])]
  rcases Option.isSome_iff_exists.mp h with ⟨bb, hbb⟩
  rw [hbb]
  rfl

theorem WF_frame (db db' : DB)
    (hb : db'.books = db.books) (hi : db'.cartItems = db.cartItems)
    (ho : db'.orderItems = db.orderItems)
    (hn : db'.nextOrderId = db.nextOrderId) (h : WF db) : WF db' := by
  obtain ⟨w1, w2, w3, w4, w5⟩ := h
  refine ⟨by rw [hb]; exact w1, by rw [hb]; exact w2, by rw [hi]; exact w3,
    ?_, by rw [ho, hn]; exact w5⟩
  intro it hit
  rw [hi] at hit
  rw [lookupBook_congr db db' hb]
  exact w4 it hit

theorem WF_getOrCreate (db : DB) (u : Nat) (h : WF db) :
    WF (getOrCreateActiveCart db u).1 :=
  WF_frame db _ (getOrCreate_books db u) (getOrCreate_cartItems db u)
    (getOrCreate_orderItems db u) (getOrCreate_nextOrderId db u) h

/-! ## Shapes of the committed state of each cart operation -/

theorem listCart_state (u : Nat) (p s : Int) (db : DB) :
    (listCart u p s db).1 = (getOrCreateActiveCart db u).1 := rfl

theorem removeCartItem_state (u b : Nat) (db : DB) :
    (removeCartItem u b db).1 =
      { (getOrCreateActiveCart db u).1 with
        cartItems := (getOrCreateActiveCart db u).1.cartItems.filter
          (fun it => !(it.cartId == (getOrCreateActiveCart db u).2.id &&
            it.bookId == b)) } := rfl

theorem addCartItem_shape (u b : Nat) (q : Int) (db : DB) :
    (addCartItem u b q db).1 = db ∨
    (addCartItem u b q db).1 = (getOrCreateActiveCart db u).1 ∨
    (∃ qv bk,
      findLiveBook (getOrCreateActiveCart db u).1 b = some bk ∧
      findCartItem (getOrCreateActiveCart db u).1
        (getOrCreateActiveCart db u).2.id b = none ∧
      (addCartItem u b q db).1 =
        { (getOrCreateActiveCart db u).1 with
          cartItems := (getOrCreateActiveCart db u).1.cartItems ++
            [{ cartId := (getOrCreateActiveCart db u).2.id, bookId := b,
               quantity := qv, unitPrice := bk.price,
               createdAt := (getOrCreateActiveCart db u).1.now }],
          now := (getOrCreateActiveCart db u).1.now + 1 }) ∨
    (∃ qv, (addCartItem u b q db).1 =
        { (getOrCreateActiveCart db u).1 with
          cartItems := (getOrCreateActiveCart db u).1.cartItems.map (fun it =>
            if it.cartId == (getOrCreateActiveCart db u).2.id &&
                it.bookId == b
            then { it with quantity := qv } else it) }) := by
  unfold addCartItem
  cases parseQuantity q with
  | error e => exact Or.inl rfl
  | ok qv =>
    dsimp only
    cases hbk : findLiveBook (getOrCreateActiveCart db u).1 b with
    | none => exact Or.inr (Or.inl rfl)
    | some bk =>
      dsimp only
      by_cases hst : bk.stock < qv
      · rw [if_pos hst]
        exact Or.inr (Or.inl rfl)
      · rw [if_neg hst]
        cases hex : findCartItem (getOrCreateActiveCart db u).1
            (getOrCreateActiveCart db u).2.id b with
        | none => exact Or.inr (Or.inr (Or.inl ⟨qv, bk, rfl, rfl, rfl⟩))
        | some ex =>
          dsimp only
          by_cases h2 : bk.stock < ex.quantity + qv
          · rw [if_pos h2]
            exact Or.inr (Or.inl rfl)
          · rw [if_neg h2]
            exact Or.inr (Or.inr (Or.inr ⟨ex.quantity + qv, rfl⟩))

theorem updateCartItem_shape (u b : Nat) (q : Int) (db : DB) :
    (updateCartItem u b q db).1 = db ∨
    (updateCartItem u b q db).1 = (getOrCreateActiveCart db u).1 ∨
    (∃ qv, (updateCartItem u b q db).1 =
        { (getOrCreateActiveCart db u).1 with
          cartItems := (getOrCreateActiveCart db u).1.cartItems.map (fun it =>
            if it.cartId == (getOrCreateActiveCart db u).2.id &&
                it.bookId == b
            then { it with quantity := qv } else it) }) := by
  unfold updateCartItem
  cases parseQuantity q with
  | error e => exact Or.inl rfl
  | ok qv =>
    dsimp only
    cases hbk : findLiveBook (getOrCreateActiveCart db u).1 b with
    | none => exact Or.inr (Or.inl rfl)
    | some bk =>
      dsimp only
      by_cases hst : bk.stock < qv
      · rw [if_pos hst]
        exact Or.inr (Or.inl rfl)
      · rw [if_neg hst]
        cases hex : findCartItem (getOrCreateActiveCart db u).1
            (getOrCreateActiveCart db u).2.id b with
        | none => exact Or.inr (Or.inl rfl)
        | some ex => exact Or.inr (Or.inr ⟨qv, rfl⟩)

/-! ## Preservation of well-formedness -/

theorem WF_addCartItem (u b : Nat) (q : Int) (db : DB) (h : WF db) :
    WF (addCartItem u b q db).1 := by
  have h1 := WF_getOrCreate db u h
  rcases addCartItem_shape u b q db with hs | hs | ⟨qv, bk, hbk, hex, hs⟩ |
    ⟨qv, hs⟩
  · rw [hs]
    exact h
  · rw [hs]
    exact h1
  · rw [hs]
    obtain ⟨w1, w2, w3, w4, w5⟩ := h1
    refine ⟨w1, w2, ?_, ?_, w5⟩
    · rw [List.map_append]
      rw [List.nodup_append]
      refine ⟨w3, by simp, ?_⟩
      intro k hk1 hk2
      simp only [List.map_cons, List.map_nil, List.mem_singleton] at hk2
      subst hk2
      obtain ⟨it0, hit0, hkey⟩ := List.mem_map.mp hk1
      unfold findCartItem at hex
      apply List.find?_eq_none.mp hex it0 hit0
      have e1 : it0.cartId = (getOrCreateActiveCart db u).2.id :=
        congrArg Prod.fst hkey
      have e2 : it0.bookId = b := congrArg Prod.snd hkey
      rw [Bool.and_eq_true]
      exact ⟨beq_iff_eq.mpr e1, beq_iff_eq.mpr e2⟩
    · intro it hit
      rw [List.mem_append] at hit
      rcases hit with hit | hit
      · exact w4 it hit
      · simp only [List.mem_singleton] at hit
        subst hit
        exact findLiveBook_lookup_isSome _ b bk hbk
  · rw [hs]
    obtain ⟨w1, w2, w3, w4, w5⟩ := h1
    have hkeys : (((getOrCreateActiveCart db u).1.cartItems.map (fun it =>
        if it.cartId == (getOrCreateActiveCart db u).2.id && it.bookId == b
        then { it with quantity := qv } else it)).map
          (fun it => (it.cartId, it.bookId))) =
        (getOrCreateActiveCart db u).1.cartItems.map
          (fun it => (it.cartId, it.bookId)) := by
      rw [List.map_map]
      apply List.map_congr_left
      intro it _
      simp only [Function.comp]
      by_cases hcond : (it.cartId == (getOrCreateActiveCart db u).2.id &&
          it.bookId == b) = true
      · rw [if_pos hcond]
      · rw [if_neg hcond]
    refine ⟨w1, w2, ?_, ?_, w5⟩
    · rw [hkeys]
      exact w3
    · intro it hit
      obtain ⟨it0, hit0, rfl⟩ := List.mem_map.mp hit
      by_cases hcond : (it0.cartId == (getOrCreateActiveCart db u).2.id &&
          it0.bookId == b) = true
      · rw [if_pos hcond]
        exact w4 it0 hit0
      · rw [if_neg hcond]
        exact w4 it0 hit0

theorem WF_updateCartItem (u b : Nat) (q : Int) (db : DB) (h : WF db) :
    WF (updateCartItem u b q db).1 := by
  have h1 := WF_getOrCreate db u h
  rcases updateCartItem_shape u b q db with hs | hs | ⟨qv, hs⟩
  · rw [hs]
    exact h
  · rw [hs]
    exact h1
  · rw [hs]
    obtain ⟨w1, w2, w3, w4, w5⟩ := h1
    have hkeys : (((getOrCreateActiveCart db u).1.cartItems.map (fun it =>
        if it.cartId == (getOrCreateActiveCart db u).2.id && it.bookId == b
        then { it with quantity := qv } else it)).map
          (fun it => (it.cartId, it.bookId))) =
        (getOrCreateActiveCart db u).1.cartItems.map
          (fun it => (it.cartId, it.bookId)) := by
      rw [List.map_map]
      apply List.map_congr_left
      intro it _
      simp only [Function.comp]
      by_cases hcond : (it.cartId == (getOrCreateActiveCart db u).2.id &&
          it.bookId == b) = true
      · rw [if_pos hcond]
      · rw [if_neg hcond]
    refine ⟨w1, w2, ?_, ?_, w5⟩
    · rw [hkeys]
      exact w3
    · intro it hit
      obtain ⟨it0, hit0, rfl⟩ := List.mem_map.mp hit
      by_cases hcond : (it0.cartId == (getOrCreateActiveCart db u).2.id &&
          it0.bookId == b) = true
      · rw [if_pos hcond]
        exact w4 it0 hit0
      · rw [if_neg hcond]
        exact w4 it0 hit0

theorem WF_removeCartItem (u b : Nat) (db : DB) (h : WF db) :
    WF (removeCartItem u b db).1 := by
  have h1 := WF_getOrCreate db u h
  rw [removeCartItem_state]
  obtain ⟨w1, w2, w3, w4, w5⟩ := h1
  refine ⟨w1, w2, ?_, ?_, w5⟩
  · exact List.Nodup.sublist
      (List.Sublist.map _ (List.filter_sublist _)) w3
  · intro it hit
    have hmem := (List.mem_filter.mp hit).1
    exact w4 it hmem

theorem WF_checkout (u : Nat) (db : DB) (h : WF db) :
    WF (createOrderFromCart u db).1 := by
  rcases checkout_cases db u with ⟨e, he⟩ | ⟨cart, jl, hc, hj, hne, hv, heq⟩
  · rw [he]
    exact h
  · rw [heq]
    obtain ⟨w1, w2, w3, w4, w5⟩ := h
    obtain ⟨hfst, hmem⟩ := joinBooks_some db _ jl hj
    have hvsem := (validateItems_none_iff jl).mp hv
    have hnd : (jl.map (fun p => p.1.bookId)).Nodup := by
      have he2 : jl.map (fun p => p.1.bookId) =
          (cartItemsOf db cart.id).map CartItem.bookId := by
        rw [← hfst, List.map_map]
        rfl
      rw [he2]
      exact cartItemsOf_bookIds_nodup db cart.id w3
    refine ⟨?_, ?_, w3, ?_, ?_⟩
    · rw [map_books_id_preserve db.books
        (fun b => { b with stock := b.stock - qtyFor jl b.id }) (fun b => rfl)]
      exact w1
    · intro b' hb'
      obtain ⟨b0, hb0, rfl⟩ := List.mem_map.mp hb'
      show 0 ≤ b0.stock - qtyFor jl b0.id
      by_cases hmem2 : b0.id ∈ jl.map (fun p => p.1.bookId)
      · obtain ⟨p, hp, hpid⟩ := List.mem_map.mp hmem2
        have hq : qtyFor jl b0.id = p.1.quantity := by
          rw [← hpid]
          exact qtyFor_eq_of_nodup jl p hnd hp
        rw [hq]
        have hlk := hmem p hp
        rw [hpid, lookupBook_self db b0 w1 hb0] at hlk
        have hp2 : p.2 = b0 := (Option.some.inj hlk).symm
        have hle := (hvsem p hp).2
        rw [hp2] at hle
        exact sub_nonneg.mpr hle
      · rw [qtyFor_zero_of_not_mem jl _ hmem2, sub_zero]
        exact w2 b0 hb0
    · intro it hit
      exact find?_id_isSome_map db.books
        (fun b => { b with stock := b.stock - qtyFor jl b.id })
        (fun b => rfl) it.bookId (w4 it hit)
    · intro oi hoi
      rw [List.mem_append] at hoi
      rcases hoi with hoi | hoi
      · exact lt_trans (w5 oi hoi) (Nat.lt_succ_self _)
      · obtain ⟨p, hp, rfl⟩ := List.mem_map.mp hoi
        exact Nat.lt_succ_self _

theorem WF_stepOp (db : DB) (op : Op) (h : WF db) : WF (stepOp db op) := by
  cases op with
  | list u p s =>
    show WF (listCart u p s db).1
    rw [listCart_state]
    exact WF_getOrCreate db u h
  | add u b q => exact WF_addCartItem u b q db h
  | updateQty u b q => exact WF_updateCartItem u b q db h
  | remove u b => exact WF_removeCartItem u b db h
  | checkout u => exact WF_checkout u db h

theorem WF_runOps (ops : List Op) (db : DB) (h : WF db) :
    WF (runOps ops db) := by
  induction ops generalizing db with
  | nil => exact h
  | cons op rest ih => exact ih _ (WF_stepOp db op h)

/-! ## Stock accounting -/

theorem filter_orderItems_old (l : List OrderItem) (oid bid : Nat)
    (h : ∀ oi ∈ l, oi.orderId < oid) :
    l.filter (fun oi => oi.orderId == oid && oi.bookId == bid) = [] := by
  apply List.filter_eq_nil_iff.mpr
  intro oi hoi hpred
  rw [Bool.and_eq_true] at hpred
  exact absurd (beq_iff_eq.mp hpred.1) (Nat.ne_of_lt (h oi hoi))

theorem sum_filter_orderItems_new (jl : List (CartItem × Book))
    (oid bid : Nat) :
    (((jl.map (mkOrderItem oid)).filter
        (fun oi => oi.orderId == oid && oi.bookId == bid)).map
      OrderItem.quantity).sum = qtyFor jl bid := by
  induction jl with
  | nil => rfl
  | cons p rest ih =>
    simp only [List.map_cons, List.filter_cons]
    by_cases hb : (p.1.bookId == bid) = true
    · rw [if_pos (by simp [mkOrderItem, hb])]
      simp only [List.map_cons, List.sum_cons]
      rw [ih]
      simp [qtyFor, mkOrderItem, hb]
    · rw [if_neg (by simp [mkOrderItem, hb])]
      rw [ih]
      simp [qtyFor, hb]

/-- C3: stock accounting and non-negativity.  (a) After a committed checkout,
every book's row shows its old stock minus the total quantity of that book in
the new order's items.  (b) For every sequence of cart/checkout calls from a
well-formed state, no book's stock is ever negative.  (c) Attempting to
check out a cart line whose quantity exceeds the book's stock leaves the
state unchanged and returns a 422 UNPROCESSABLE_ENTITY error. -/
theorem claim_C3 :
    (∀ (db : DB) (u : Nat) (db' : DB) (pay : CheckoutPayload), WF db →
       createOrderFromCart u db = (db', Except.ok pay) →
       ∀ (bid : Nat) (b : Book), lookupBook db bid = some b →
         lookupBook db' bid =
           some { b with stock := b.stock - orderedQty db' pay.orderId bid }) ∧
    (∀ (db : DB) (ops : List Op), WF db →
       ∀ b ∈ (runOps ops db).books, 0 ≤ b.stock) ∧
    (∀ (db : DB) (u : Nat) (cart : Cart) (it : CartItem) (bk : Book),
       WF db → findActiveCart db u = some cart → it ∈ db.cartItems →
       it.cartId = cart.id → lookupBook db it.bookId = some bk →
       bk.stock < it.quantity →
       ∃ e, createOrderFromCart u db = (db, Except.error e) ∧
         e.status = 422 ∧ e.code = ErrCode.UNPROCESSABLE_ENTITY) := by
  refine ⟨?_, ?_, ?_⟩
  · intro db u db' pay hWF heq bid b hlb
    obtain ⟨cart, jl, hc, hj, hne, hv, hpay, hdb'⟩ :=
      checkout_ok_inv db db' u pay heq
    subst hdb'
    subst hpay
    have hbid : b.id = bid := by
      unfold lookupBook at hlb
      have hpred : (b.id == bid) = true :=
        @List.find?_some Book (fun x => x.id == bid) b db.books hlb
      exact beq_iff_eq.mp hpred
    have hmap : ((db.books.map (fun x =>
        { x with stock := x.stock - qtyFor jl x.id })).find?
          (fun x => x.id == bid)) =
        (db.books.find? (fun x => x.id == bid)).map (fun x =>
          { x with stock := x.stock - qtyFor jl x.id }) :=
      find?_map_pred db.books _ (fun x => x.id == bid) (fun a => rfl)
    have hqty : orderedQty
        { db with
          books := db.books.map (fun x =>
            { x with stock := x.stock - qtyFor jl x.id }),
          carts := db.carts.map (fun c =>
            if c.id == cart.id then { c with status := CartStatus.CHECKED_OUT }
            else c),
          orders := db.orders ++
            [{ id := db.nextOrderId, userId := u, cartId := some cart.id,
               status := OrderStatus.PENDING,
               paymentStatus := PaymentStatus.UNPAID,
               totalAmount :=
                 (jl.map fun p => p.1.unitPrice * (p.1.quantity : ℚ)).sum,
               placedAt := db.now, createdAt := db.now }],
          orderItems := db.orderItems ++ jl.map (mkOrderItem db.nextOrderId),
          nextOrderId := db.nextOrderId + 1,
          now := db.now + 1 } db.nextOrderId bid = qtyFor jl bid := by
      unfold orderedQty
      show ((((db.orderItems ++ jl.map (mkOrderItem db.nextOrderId)).filter
        (fun oi => oi.orderId == db.nextOrderId && oi.bookId == bid)).map
          OrderItem.quantity).sum) = qtyFor jl bid
      rw [List.filter_append,
        filter_orderItems_old db.orderItems db.nextOrderId bid
          hWF.2.2.2.2, List.nil_append]
      exact sum_filter_orderItems_new jl db.nextOrderId bid
    have hlb' := hlb
    unfold lookupBook at hlb'
    simp only [lookupBook]
    rw [hmap, hlb']
    simp only [Option.map_some', hqty, hbid]
  · intro db ops hWF b hb
    exact (WF_runOps ops db hWF).2.1 b hb
  · intro db u cart it bk hWF hc hit hcid hlk hstock
    obtain ⟨w1, w2, w3, w4, w5⟩ := hWF
    have hfk : ∀ x ∈ cartItemsOf db cart.id,
        (lookupBook db x.bookId).isSome = true :=
      fun x hx => w4 x (List.mem_filter.mp hx).1
    obtain ⟨jl, hj⟩ := joinBooks_isSome db _ hfk
    obtain ⟨hfst, hmem⟩ := joinBooks_some db _ jl hj
    have hit' : it ∈ cartItemsOf db cart.id :=
      List.mem_filter.mpr ⟨hit, beq_iff_eq.mpr hcid⟩
    rw [← hfst] at hit'
    obtain ⟨p, hp, hpfst⟩ := List.mem_map.mp hit'
    have hpb : p.2 = bk := by
      have hx := hmem p hp
      rw [hpfst, hlk] at hx
      exact (Option.some.inj hx).symm
    have hbad := validateItems_isSome_of_bad jl p hp
      (Or.inr (by rw [hpb, hpfst]; exact hstock))
    obtain ⟨e, he⟩ := Option.isSome_iff_exists.mp hbad
    refine ⟨e, checkout_invalid db u cart jl e hc hj he, ?_, ?_⟩
    · rw [validateItems_some_val jl e he]
    · rw [validateItems_some_val jl e he]

/-- Witness for C3: adding 3 units of book 1 and checking out from `dbW`
keeps all stocks non-negative; checking out the over-stock cart `dbOver`
fails with 422 and leaves the state unchanged; after the committed checkout
from `dbW`, book 1's row shows the decremented stock. -/
theorem claim_C3_witness :
    (∀ b ∈ (runOps [Op.add 1 1 3, Op.checkout 1] dbW).books, 0 ≤ b.stock) ∧
    (∃ e, createOrderFromCart 1 dbOver = (dbOver, Except.error e) ∧
       e.status = 422 ∧ e.code = ErrCode.UNPROCESSABLE_ENTITY) ∧
    lookupBook (createOrderFromCart 1 dbW).1 1 =
      some { id := 1, title := "Dune", price := 10000,
             stock := 5 - orderedQty (createOrderFromCart 1 dbW).1 1 1,
             deletedAt := none, avgRating := 0, reviewCount := 0 } :=
  ⟨claim_C3.2.1 dbW [Op.add 1 1 3, Op.checkout 1] (by decide),
   claim_C3.2.2 dbOver 1 ⟨1, 1, CartStatus.ACTIVE, 0⟩ ⟨1, 1, 9, 10000, 1⟩
     ⟨1, "Dune", 10000, 5, none, 0, 0⟩ (by decide) (by decide) (by decide)
     (by decide) (by decide) (by decide),
   claim_C3.1 dbW 1 (createOrderFromCart 1 dbW).1 ⟨1, 2⟩ (by decide)
     (Prod.ext rfl (by decide)) 1 ⟨1, "Dune", 10000, 5, none, 0, 0⟩
     (by decide)⟩

/-! ## The one-ACTIVE-cart invariant -/

theorem filter_map_length_le {α : Type} (l : List α) (f : α → α)
    (p : α → Bool) (h : ∀ c, p (f c) = true → p c = true) :
    ((l.map f).filter p).length ≤ (l.filter p).length := by
  induction l with
  | nil => simp
  | cons c rest ih =>
    simp only [List.map_cons, List.filter_cons]
    by_cases hc : p (f c) = true
    · rw [if_pos hc, if_pos (h c hc)]
      simpa using ih
    · rw [if_neg hc]
      by_cases hc2 : p c = true
      · rw [if_pos hc2]
        exact le_trans ih (by simp)
      · rw [if_neg hc2]
        exact ih

theorem activeInv_getOrCreate (db : DB) (u : Nat)
    (h : ∀ v, (activeCartsOf db v).length ≤ 1) (v : Nat) :
    (activeCartsOf (getOrCreateActiveCart db u).1 v).length ≤ 1 := by
  unfold getOrCreateActiveCart
  cases hc : findActiveCart db u with
  | some c => exact h v
  | none =>
    dsimp only
    show ((db.carts ++
      [({ id := db.nextCartId, userId := u, status := CartStatus.ACTIVE,
          createdAt := db.now } : Cart)]).filter (fun c =>
        c.userId == v && decide (c.status = CartStatus.ACTIVE))).length ≤ 1
    rw [List.filter_append, List.length_append]
    by_cases hv : v = u
    · subst hv
      have hzero : db.carts.filter (fun c =>
          c.userId == v && decide (c.status = CartStatus.ACTIVE)) = [] := by
        apply List.filter_eq_nil_iff.mpr
        intro c hcmem
        unfold findActiveCart at hc
        exact List.find?_eq_none.mp hc c hcmem
      rw [hzero]
      simp
    · have hf : (u == v) = false := beq_eq_false_iff_ne.mpr (Ne.symm hv)
      have hv' := h v
      unfold activeCartsOf at hv'
      simpa [hf] using hv'

theorem activeInv_stepOp (db : DB) (op : Op)
    (h : ∀ v, (activeCartsOf db v).length ≤ 1) :
    ∀ v, (activeCartsOf (stepOp db op) v).length ≤ 1 := by
  cases op with
  | list u p s =>
    intro v
    show (activeCartsOf (listCart u p s db).1 v).length ≤ 1
    rw [listCart_state]
    exact activeInv_getOrCreate db u h v
  | add u b q =>
    intro v
    show (activeCartsOf (addCartItem u b q db).1 v).length ≤ 1
    rcases addCartItem_shape u b q db with hs | hs | ⟨qv, bk, _, _, hs⟩ |
      ⟨qv, hs⟩
    · rw [hs]
      exact h v
    · rw [hs]
      exact activeInv_getOrCreate db u h v
    · rw [hs]
      exact activeInv_getOrCreate db u h v
    · rw [hs]
      exact activeInv_getOrCreate db u h v
  | updateQty u b q =>
    intro v
    show (activeCartsOf (updateCartItem u b q db).1 v).length ≤ 1
    rcases updateCartItem_shape u b q db with hs | hs | ⟨qv, hs⟩
    · rw [hs]
      exact h v
    · rw [hs]
      exact activeInv_getOrCreate db u h v
    · rw [hs]
      exact activeInv_getOrCreate db u h v
  | remove u b =>
    intro v
    show (activeCartsOf (removeCartItem u b db).1 v).length ≤ 1
    rw [removeCartItem_state]
    exact activeInv_getOrCreate db u h v
  | checkout u =>
    intro v
    show (activeCartsOf (createOrderFromCart u db).1 v).length ≤ 1
    rcases checkout_cases db u with ⟨e, he⟩ | ⟨cart, jl, hc, hj, hne, hv2, heq⟩
    · rw [he]
      exact h v
    · rw [heq]
      refine le_trans (filter_map_length_le db.carts _ _ ?_) (h v)
      intro c hpc
      by_cases hid : (c.id == cart.id) = true
      · rw [if_pos hid] at hpc
        simp at hpc
      · rw [if_neg hid] at hpc
        exact hpc

/-- C4: at most one ACTIVE cart per user — after any sequence of cart
operations (listCart, addItem, updateItem, removeItem, checkout) from a
state satisfying the invariant, querying carts for any user yields at most
one row with status ACTIVE. -/
theorem claim_C4 (db : DB) (h : ∀ v, (activeCartsOf db v).length ≤ 1)
    (ops : List Op) (v : Nat) :
    (activeCartsOf (runOps ops db) v).length ≤ 1 := by
  induction ops generalizing db with
  | nil => exact h v
  | cons op rest ih => exact ih _ (activeInv_stepOp db op h)

/-- Witness for C4: a mixed call sequence over `dbW` (a list by a fresh user
creating a cart lazily, an add, a checkout, and a post-checkout add creating
a fresh cart) leaves both users with at most one ACTIVE cart. -/
theorem claim_C4_witness :
    (activeCartsOf (runOps [Op.list 2 1 20, Op.add 1 1 2, Op.checkout 1,
       Op.add 1 1 1] dbW) 1).length ≤ 1 ∧
    (activeCartsOf (runOps [Op.list 2 1 20, Op.add 1 1 2, Op.checkout 1,
       Op.add 1 1 1] dbW) 2).length ≤ 1 := by
  have hinv : ∀ v, (activeCartsOf dbW v).length ≤ 1 := by
    intro v
    by_cases hv : v = 1
    · subst hv
      decide
    · have hf : ((1 : Nat) == v) = false := beq_eq_false_iff_ne.mpr
        (Ne.symm hv)
      simp [activeCartsOf, dbW, emptyDB, hf]
  exact ⟨claim_C4 dbW hinv _ 1, claim_C4 dbW hinv _ 2⟩

/-- C7: addItem rejects any quantity outside [1,999] with a validation
error; when no cart line exists for (cart, book) it creates one capturing
`unitPrice = book.price` at add time; when a line exists it rejects with 422
if `existing.quantity + quantity` exceeds the book's current stock and
otherwise updates only the quantity, leaving `unitPrice` at the originally
captured value (no repricing on repeated additions). -/
theorem addItem_validation_and_pricing (db : DB) (u b : Nat) (q : Int) :
    ((q < 1 ∨ q > 999) →
       addCartItem u b q db =
         (db, Except.error ⟨400, ErrCode.VALIDATION_FAILED⟩)) ∧
    (∀ book, 1 ≤ q → q ≤ 999 →
       findLiveBook db b = some book →
       ¬ book.stock < q →
       findCartItem db (getOrCreateActiveCart db u).2.id b = none →
       addCartItem u b q db =
         ({ (getOrCreateActiveCart db u).1 with
            cartItems := (getOrCreateActiveCart db u).1.cartItems ++
              [{ cartId := (getOrCreateActiveCart db u).2.id, bookId := b,
                 quantity := q, unitPrice := book.price,
                 createdAt := (getOrCreateActiveCart db u).1.now }],
            now := (getOrCreateActiveCart db u).1.now + 1 },
          Except.ok ⟨(getOrCreateActiveCart db u).2.id, b, q, book.price⟩)) ∧
    (∀ book ex, 1 ≤ q → q ≤ 999 →
       findLiveBook db b = some book →
       ¬ book.stock < q →
       findCartItem db (getOrCreateActiveCart db u).2.id b = some ex →
       book.stock < ex.quantity + q →
       addCartItem u b q db =
         ((getOrCreateActiveCart db u).1,
          Except.error ⟨422, ErrCode.UNPROCESSABLE_ENTITY⟩)) ∧
    (∀ book ex, 1 ≤ q → q ≤ 999 →
       findLiveBook db b = some book →
       ¬ book.stock < q →
       findCartItem db (getOrCreateActiveCart db u).2.id b = some ex →
       ¬ book.stock < ex.quantity + q →
       addCartItem u b q db =
         ({ (getOrCreateActiveCart db u).1 with
            cartItems := (getOrCreateActiveCart db u).1.cartItems.map
              (fun it =>
                if it.cartId == (getOrCreateActiveCart db u).2.id &&
                    it.bookId == b
                then { it with quantity := ex.quantity + q } else it) },
          Except.ok ⟨(getOrCreateActiveCart db u).2.id, b, ex.quantity + q,
            ex.unitPrice⟩)) := by
  refine ⟨?_, ?_, ?_, ?_⟩
  · intro hq
    have hcond : (decide (q < 1) || decide (q > 999)) = true := by
      rcases hq with h | h <;> simp [h]
    simp [addCartItem, parseQuantity, hcond]
  · intro book hq1 hq2 hbook hstock hex
    have hpar : parseQuantity q = Except.ok q := by
      unfold parseQuantity
      rw [if_neg (by simp only [Bool.or_eq_true, decide_eq_true_eq]; omega)]
    have hb1 : findLiveBook (getOrCreateActiveCart db u).1 b = some book := by
      rw [findLiveBook_books_congr db _ b (getOrCreate_books db u)]
      exact hbook
    have he1 : findCartItem (getOrCreateActiveCart db u).1
        (getOrCreateActiveCart db u).2.id b = none := by
      rw [findCartItem_items_congr db _ _ b (getOrCreate_cartItems db u)]
      exact hex
    simp [addCartItem, hpar, hb1, he1, hstock]
  · intro book ex hq1 hq2 hbook hstock hex hover
    have hpar : parseQuantity q = Except.ok q := by
      unfold parseQuantity
      rw [if_neg (by simp only [Bool.or_eq_true, decide_eq_true_eq]; omega)]
    have hb1 : findLiveBook (getOrCreateActiveCart db u).1 b = some book := by
      rw [findLiveBook_books_congr db _ b (getOrCreate_books db u)]
      exact hbook
    have he1 : findCartItem (getOrCreateActiveCart db u).1
        (getOrCreateActiveCart db u).2.id b = some ex := by
      rw [findCartItem_items_congr db _ _ b (getOrCreate_cartItems db u)]
      exact hex
    simp [addCartItem, hpar, hb1, he1, hstock, hover]
  · intro book ex hq1 hq2 hbook hstock hex hfits
    have hpar : parseQuantity q = Except.ok q := by
      unfold parseQuantity
      rw [if_neg (by simp only [Bool.or_eq_true, decide_eq_true_eq]; omega)]
    have hb1 : findLiveBook (getOrCreateActiveCart db u).1 b = some book := by
      rw [findLiveBook_books_congr db _ b (getOrCreate_books db u)]
      exact hbook
    have he1 : findCartItem (getOrCreateActiveCart db u).1
        (getOrCreateActiveCart db u).2.id b = some ex := by
      rw [findCartItem_items_congr db _ _ b (getOrCreate_cartItems db u)]
      exact hex
    simp [addCartItem, hpar, hb1, he1, hstock, hfits]

/-- Witness for C7: quantity 1000 is rejected with VALIDATION_FAILED; user
2's fresh line on book 1 captures unitPrice 10000; user 1's existing 3-unit
line rejects +3 (total 6 > stock 5) with 422, and accepts +2 keeping the
captured unitPrice. -/
theorem addItem_validation_and_pricing_witness :
    addCartItem 1 1 1000 dbW =
      (dbW, Except.error ⟨400, ErrCode.VALIDATION_FAILED⟩) ∧
    addCartItem 2 1 2 dbW =
      ({ (getOrCreateActiveCart dbW 2).1 with
         cartItems := (getOrCreateActiveCart dbW 2).1.cartItems ++
           [{ cartId := (getOrCreateActiveCart dbW 2).2.id, bookId := 1,
              quantity := 2, unitPrice := 10000,
              createdAt := (getOrCreateActiveCart dbW 2).1.now }],
         now := (getOrCreateActiveCart dbW 2).1.now + 1 },
       Except.ok ⟨(getOrCreateActiveCart dbW 2).2.id, 1, 2, 10000⟩) ∧
    addCartItem 1 1 3 dbW =
      ((getOrCreateActiveCart dbW 1).1,
       Except.error ⟨422, ErrCode.UNPROCESSABLE_ENTITY⟩) ∧
    addCartItem 1 1 2 dbW =
      ({ (getOrCreateActiveCart dbW 1).1 with
         cartItems := (getOrCreateActiveCart dbW 1).1.cartItems.map
           (fun it =>
             if it.cartId == (getOrCreateActiveCart dbW 1).2.id &&
                 it.bookId == 1
             then { it with quantity := 3 + 2 } else it) },
       Except.ok ⟨(getOrCreateActiveCart dbW 1).2.id, 1, 3 + 2, 10000⟩) :=
  ⟨(addItem_validation_and_pricing dbW 1 1 1000).1 (Or.inr (by decide)),
   (addItem_validation_and_pricing dbW 2 1 2).2.1
     ⟨1, "Dune", 10000, 5, none, 0, 0⟩ (by decide) (by decide) (by decide)
     (by decide) (by decide),
   (addItem_validation_and_pricing dbW 1 1 3).2.2.1
     ⟨1, "Dune", 10000, 5, none, 0, 0⟩ ⟨1, 1, 3, 10000, 1⟩ (by decide)
     (by decide) (by decide) (by decide) (by decide) (by decide),
   (addItem_validation_and_pricing dbW 1 1 2).2.2.2
     ⟨1, "Dune", 10000, 5, none, 0, 0⟩ ⟨1, 1, 3, 10000, 1⟩ (by decide)
     (by decide) (by decide) (by decide) (by decide) (by decide)⟩

/-- C8: listCart's reported subtotal is page-scoped — for every cart and
every page/size it equals `Σ unitPrice × quantity` over only the items on
the returned page; on the two-line cart `dbTwo` with page size 1 it differs
from the cart-wide sum. -/
theorem listCart_page_scoped_subtotal :
    (∀ (db : DB) (u : Nat) (page size : Int),
       (listCart u page size db).2.subtotal =
         ((((liveCartItemsDesc (getOrCreateActiveCart db u).1
              (getOrCreateActiveCart db u).2.id).drop
                ((max page 1 - 1) * min (max size 1) 100).toNat).take
                  (min (max size 1) 100).toNat).map
           (fun it => it.unitPrice * (it.quantity : ℚ))).sum ∧
       (listCart u page size db).2.content =
         (((liveCartItemsDesc (getOrCreateActiveCart db u).1
            (getOrCreateActiveCart db u).2.id).drop
              ((max page 1 - 1) * min (max size 1) 100).toNat).take
                (min (max size 1) 100).toNat)) ∧
    (listCart 1 1 1 dbTwo).2.subtotal ≠
      ((liveCartItemsDesc dbTwo 1).map
        (fun it => it.unitPrice * (it.quantity : ℚ))).sum := by
  constructor
  · intro db u page size
    exact ⟨rfl, rfl⟩
  · have h1 : (listCart 1 1 1 dbTwo).2.subtotal = 200 * (1 : ℚ) + 0 := rfl
    have h2 : ((liveCartItemsDesc dbTwo 1).map
        (fun it => it.unitPrice * (it.quantity : ℚ))).sum =
        200 * (1 : ℚ) + (100 * (1 : ℚ) + 0) := rfl
    rw [h1, h2]
    norm_num

/-! ## Review aggregates -/

theorem recomputeAgg_consistent (db : DB) (bid : Nat) :
    bookAggConsistent (recomputeAgg db bid) bid := by
  intro b hb hbid
  have hb' : b ∈ db.books.map (fun b0 =>
      if b0.id == bid then
        { b0 with reviewCount := (liveReviews db bid).length,
                  avgRating := meanRating (liveReviews db bid) }
      else b0) := hb
  obtain ⟨b0, hb0, rfl⟩ := List.mem_map.mp hb'
  by_cases hid : (b0.id == bid) = true
  · rw [if_pos hid]
    exact ⟨rfl, rfl⟩
  · rw [if_neg hid] at hbid
    exact absurd (beq_iff_eq.mpr hbid) hid

/-- C5: immediately after any review create, update, or soft-delete that
mutates a review of a book, the book's `reviewCount` equals the count of its
non-deleted reviews and `avgRating` equals their arithmetic mean (0 when
the count is 0); each such mutation together with the recompute is one
atomic transaction, so a failed call leaves the state untouched. -/
theorem claim_C5 :
    (∀ (u bid : Nat) (r : Int) (t : Option String) (c : String)
       (db db' : DB) (rid : Nat),
       createReview u bid r t c db = (db', Except.ok rid) →
       bookAggConsistent db' bid) ∧
    (∀ (u bid : Nat) (r : Int) (t : Option String) (c : String)
       (db db' : DB) (e : ApiErr),
       createReview u bid r t c db = (db', Except.error e) → db' = db) ∧
    (∀ (u rid : Nat) (rat : Option Int) (t : Option String)
       (c : Option String) (db db' : DB) (rev : Review),
       db.reviews.find? (fun x => x.id == rid) = some rev →
       updateReview u rid rat t c db = (db', Except.ok ()) →
       bookAggConsistent db' rev.bookId) ∧
    (∀ (u rid : Nat) (rat : Option Int) (t : Option String)
       (c : Option String) (db db' : DB) (e : ApiErr),
       updateReview u rid rat t c db = (db', Except.error e) → db' = db) ∧
    (∀ (u rid : Nat) (db db' : DB) (rev : Review),
       db.reviews.find? (fun x => x.id == rid) = some rev →
       rev.deletedAt = none →
       deleteReview u rid db = (db', Except.ok ()) →
       bookAggConsistent db' rev.bookId) ∧
    (∀ (u rid : Nat) (db db' : DB) (e : ApiErr),
       deleteReview u rid db = (db', Except.error e) → db' = db) := by
  refine ⟨?_, ?_, ?_, ?_, ?_, ?_⟩
  · intro u bid r t c db db' rid h
    unfold createReview at h
    split at h
    · exact absurd (congrArg Prod.snd h) (by simp)
    · split at h
      · exact absurd (congrArg Prod.snd h) (by simp)
      · split at h
        · exact absurd (congrArg Prod.snd h) (by simp)
        · split at h
          · exact absurd (congrArg Prod.snd h) (by simp)
          · split at h
            · exact absurd (congrArg Prod.snd h) (by simp)
            · have hdb := congrArg Prod.fst h
              simp only at hdb
              rw [← hdb]
              exact recomputeAgg_consistent _ bid
  · intro u bid r t c db db' e h
    unfold createReview at h
    split at h
    · exact (congrArg Prod.fst h).symm
    · split at h
      · exact (congrArg Prod.fst h).symm
      · split at h
        · exact (congrArg Prod.fst h).symm
        · split at h
          · exact (congrArg Prod.fst h).symm
          · split at h
            · exact (congrArg Prod.fst h).symm
            · exact absurd (congrArg Prod.snd h) (by simp)
  · intro u rid rat t c db db' rev hfind h
    unfold updateReview at h
    rw [hfind] at h
    simp only at h
    split at h
    · exact absurd (congrArg Prod.snd h) (by simp)
    · split at h
      · exact absurd (congrArg Prod.snd h) (by simp)
      · split at h
        · exact absurd (congrArg Prod.snd h) (by simp)
        · split at h
          · exact absurd (congrArg Prod.snd h) (by simp)
          · split at h
            · exact absurd (congrArg Prod.snd h) (by simp)
            · split at h
              · exact absurd (congrArg Prod.snd h) (by simp)
              · have hdb := congrArg Prod.fst h
                simp only at hdb
                rw [← hdb]
                exact recomputeAgg_consistent _ rev.bookId
  · intro u rid rat t c db db' e h
    unfold updateReview at h
    split at h
    · exact (congrArg Prod.fst h).symm
    · split at h
      · exact (congrArg Prod.fst h).symm
      · split at h
        · exact (congrArg Prod.fst h).symm
        · split at h
          · exact (congrArg Prod.fst h).symm
          · split at h
            · exact (congrArg Prod.fst h).symm
            · split at h
              · exact (congrArg Prod.fst h).symm
              · split at h
                · exact (congrArg Prod.fst h).symm
                · exact absurd (congrArg Prod.snd h) (by simp)
  · intro u rid db db' rev hfind hdel h
    unfold deleteReview at h
    rw [hfind] at h
    simp only at h
    split at h
    · exact absurd (congrArg Prod.snd h) (by simp)
    · split at h
      · next hcond =>
        rw [hdel] at hcond
        simp at hcond
      · have hdb := congrArg Prod.fst h
        simp only at hdb
        rw [← hdb]
        exact recomputeAgg_consistent _ rev.bookId
  · intro u rid db db' e h
    unfold deleteReview at h
    split at h
    · exact (congrArg Prod.fst h).symm
    · split at h
      · exact (congrArg Prod.fst h).symm
      · split at h
        · exact absurd (congrArg Prod.snd h) (by simp)
        · exact absurd (congrArg Prod.snd h) (by simp)

/-- Witness for C5: creating a second review (rating 5, user 1) on book 1 of
`dbRev` and soft-deleting review 1 (user 2) of `dbRev` both leave book 1's
aggregates consistent with its non-deleted reviews. -/
theorem claim_C5_witness :
    bookAggConsistent ((createReview 1 1 5 none "nice" dbRev).1) 1 ∧
    bookAggConsistent ((deleteReview 2 1 dbRev).1) 1 := by
  constructor
  · exact claim_C5.1 1 1 5 none "nice" dbRev
      (createReview 1 1 5 none "nice" dbRev).1 2 (Prod.ext rfl (by decide))
  · have hb : (deleteReview 2 1 dbRev).1 =
        (deleteReview 2 1 dbRev).1 := rfl
    have := claim_C5.2.2.2.2.1 2 1 dbRev (deleteReview 2 1 dbRev).1
      ⟨1, 2, 1, 5, none, "great", 0, 0, none⟩ (by decide) (by decide)
      (Prod.ext rfl (by decide))
    simpa using this

/-- C6: like and unlike on a review or comment are idempotent: liking when a
like row already exists is a no-op (no duplicate row, counters unchanged —
the state is untouched), and unliking when no like row exists is a no-op
that still returns success. -/
theorem claim_C6 (db : DB) (u rid cid : Nat) :
    (∀ rv lk,
       db.reviews.find? (fun r => r.id == rid && r.deletedAt.isNone) =
         some rv →
       db.reviewLikes.find? (fun l =>
         l.userId == u && l.reviewId == rid) = some lk →
       likeReview u rid db = (db, Except.ok ())) ∧
    (db.reviewLikes.find? (fun l =>
       l.userId == u && l.reviewId == rid) = none →
       unlikeReview u rid db = (db, Except.ok ())) ∧
    (∀ lk, db.commentLikes.find? (fun l =>
       l.userId == u && l.commentId == cid) = some lk →
       likeComment u cid db = (db, Except.ok ())) ∧
    (db.commentLikes.find? (fun l =>
       l.userId == u && l.commentId == cid) = none →
       unlikeComment u cid db = (db, Except.ok ())) := by
  refine ⟨?_, ?_, ?_, ?_⟩
  · intro rv lk h1 h2
    simp [likeReview, h1, h2]
  · intro h
    simp [unlikeReview, h]
  · intro lk h
    simp [likeComment, h]
  · intro h
    simp [unlikeComment, h]

/-- Witness for C6 on `dbLike`: a repeat like of review 1 / comment 1 by
user 1 and an unlike by user 9 (who holds no like row) all succeed without
changing the state. -/
theorem claim_C6_witness :
    likeReview 1 1 dbLike = (dbLike, Except.ok ()) ∧
    unlikeReview 9 1 dbLike = (dbLike, Except.ok ()) ∧
    likeComment 1 1 dbLike = (dbLike, Except.ok ()) ∧
    unlikeComment 9 1 dbLike = (dbLike, Except.ok ()) :=
  ⟨(claim_C6 dbLike 1 1 1).1 ⟨1, 2, 1, 4, none, "ok", 1, 1, none⟩ ⟨1, 1⟩
     (by decide) (by decide),
   (claim_C6 dbLike 9 1 1).2.1 (by decide),
   (claim_C6 dbLike 1 1 1).2.2.1 ⟨1, 1⟩ (by decide),
   (claim_C6 dbLike 9 1 1).2.2.2 (by decide)⟩

/-- C10: `likeComment` performs no existence or soft-delete check on its
target: for every soft-deleted comment and every user who has not yet liked
it, `likeComment` succeeds, inserts the like row, and increments the
deleted comment's `likeCount`; `likeReview` on a review all of whose rows
with that id are soft-deleted fails with RESOURCE_NOT_FOUND. -/
theorem claim_C10 :
    (∀ (db : DB) (u cid : Nat) (c : Comment),
       db.comments.find? (fun x => x.id == cid) = some c →
       ¬ c.deletedAt = none →
       db.commentLikes.find? (fun l =>
         l.userId == u && l.commentId == cid) = none →
       likeComment u cid db =
         ({ db with
            commentLikes := db.commentLikes ++ [⟨u, cid⟩],
            comments := db.comments.map (fun x =>
              if x.id == cid then { x with likeCount := x.likeCount + 1 }
              else x) },
          Except.ok ()) ∧
       commentLikeCountOf (likeComment u cid db).1 cid =
         some (c.likeCount + 1)) ∧
    (∀ (db : DB) (u rid : Nat),
       (∀ r ∈ db.reviews, r.id = rid → ¬ r.deletedAt = none) →
       likeReview u rid db =
         (db, Except.error ⟨404, ErrCode.RESOURCE_NOT_FOUND⟩)) := by
  constructor
  · intro db u cid c hfind hdel hnolike
    have hcmem : c ∈ db.comments := List.mem_of_find?_eq_some hfind
    have hpred : (c.id == cid) = true :=
      @List.find?_some Comment (fun x => x.id == cid) c db.comments hfind
    have hany : (db.comments.any (fun x => x.id == cid)) = true :=
      List.any_eq_true.mpr ⟨c, hcmem, hpred⟩
    have heq : likeComment u cid db =
        ({ db with
           commentLikes := db.commentLikes ++ [⟨u, cid⟩],
           comments := db.comments.map (fun x =>
             if x.id == cid then { x with likeCount := x.likeCount + 1 }
             else x) },
         Except.ok ()) := by
      simp [likeComment, hnolike, hany]
    refine ⟨heq, ?_⟩
    rw [heq]
    show ((db.comments.map (fun x =>
        if x.id == cid then { x with likeCount := x.likeCount + 1 }
        else x)).find? (fun x => x.id == cid)).map Comment.likeCount =
      some (c.likeCount + 1)
    rw [find?_map_pred db.comments _ (fun x => x.id == cid) (fun a => by
      by_cases hx : (a.id == cid) = true
      · rw [if_pos hx]
      · rw [if_neg hx])]
    rw [hfind]
    simp [hpred, beq_iff_eq.mp hpred]
  · intro db u rid hall
    have hnone : db.reviews.find? (fun r =>
        r.id == rid && r.deletedAt.isNone) = none := by
      apply List.find?_eq_none.mpr
      intro r hr hpred
      rw [Bool.and_eq_true] at hpred
      exact hall r hr (beq_iff_eq.mp hpred.1)
        (Option.isNone_iff_eq_none.mp hpred.2)
    simp [likeReview, hnone]

/-- Witness for C10 on `dbDel`: liking the soft-deleted comment 1 succeeds
and bumps its likeCount to 1, while liking the soft-deleted review 1 fails
with RESOURCE_NOT_FOUND. -/
theorem claim_C10_witness :
    (likeComment 1 1 dbDel =
       ({ dbDel with
          commentLikes := dbDel.commentLikes ++ [⟨1, 1⟩],
          comments := dbDel.comments.map (fun x =>
            if x.id == 1 then { x with likeCount := x.likeCount + 1 }
            else x) },
        Except.ok ()) ∧
     commentLikeCountOf (likeComment 1 1 dbDel).1 1 = some (0 + 1)) ∧
    likeReview 1 1 dbDel =
      (dbDel, Except.error ⟨404, ErrCode.RESOURCE_NOT_FOUND⟩) :=
  ⟨claim_C10.1 dbDel 1 1 ⟨1, 1, 3, "hello", 0, some 6⟩ (by decide)
     (by decide) (by decide),
   claim_C10.2 dbDel 1 1 (by decide)⟩

/-- C9 evidence: comment creation and comment soft-deletion each issue their
row mutation and the `commentCount` update as TWO separate top-level calls
(no `$transaction`), so the committed state between the two calls is
observable and has a drifted counter: after only the first call of
createComment the review shows commentCount 0 with 1 live comment, and
after only the first call of deleteComment it shows commentCount 1 with 0
live comments. -/
theorem comment_counter_not_transactional :
    (createCommentUnits 3 1 "hi").length = 2 ∧
    commentCountOf (runUnits ((createCommentUnits 3 1 "hi").take 1)
      dbRev).1 1 = some 0 ∧
    liveCommentCount (runUnits ((createCommentUnits 3 1 "hi").take 1)
      dbRev).1 1 = 1 ∧
    (deleteCommentUnits 1 1).length = 2 ∧
    commentCountOf (runUnits ((deleteCommentUnits 1 1).take 1) dbCom).1 1 =
      some 1 ∧
    liveCommentCount (runUnits ((deleteCommentUnits 1 1).take 1) dbCom).1 1 =
      0 :=
  ⟨rfl, by decide, by decide, rfl, by decide, by decide⟩

end Bookstore
